import Mathlib

/-!
Verification development for the motor-bus driver (`motors_bus.py`).

The Python source is shallowly embedded: dictionaries become association
lists (with Python's insert/overwrite semantics where dictionaries are
built from possibly duplicated key streams), exceptions become an
explicit `PyError` sum carried in `Except`, float arithmetic becomes
exact rational arithmetic, and the serial transport becomes an abstract
`Transport` record whose per-attempt communication results are given by
streams indexed by a per-channel transmit counter (`TxState`).  The
transmit counters also witness "no bytes are sent" properties: an
operation that fails before any I/O leaves the counters unchanged.
-/

/-- Python exception taxonomy used by the driver. -/
inductive PyError where
  | keyError (msg : String)
  | valueError (msg : String)
  | typeError (msg : String)
  | notImplemented (msg : String)
  | connectionError (msg : String)
  | runtimeError (msg : String)
  | osError (msg : String)
  | deviceNotConnected (msg : String)
  | deviceAlreadyConnected (msg : String)
  | zeroDivision
  | stopIteration
deriving DecidableEq

/-- Python `NameOrID: TypeAlias = str | int`. -/
inductive NameOrID where
  | name (s : String)
  | num (i : Nat)
deriving DecidableEq

/-- Python `Value: TypeAlias = int | float`; floats are embedded as exact rationals. -/
inductive Value where
  | vint (i : Int)
  | vfloat (q : ℚ)
deriving DecidableEq

/-- Numeric content of a `Value` (Python int-to-float coercion). -/
def Value.toQ : Value → ℚ
  | .vint i => (i : ℚ)
  | .vfloat q => q

/-- Display of a `Value` inside error messages. -/
def Value.pyRepr : Value → String
  | .vint i => toString i
  | .vfloat q => toString q

/-- Lookup in an association list, first match wins (Python dict access). -/
def alistGet {α β : Type} [DecidableEq α] : List (α × β) → α → Option β
  | [], _ => Option.none
  | (k, v) :: rest, key => if k = key then some v else alistGet rest key

/-- Python dict insertion: overwrite in place if the key exists, else append. -/
def pyDictInsert {α β : Type} [DecidableEq α] (d : List (α × β)) (k : α) (v : β) :
    List (α × β) :=
  if (alistGet d k).isSome then d.map (fun p => if p.1 = k then (k, v) else p)
  else d ++ [(k, v)]

/-- Build a Python dict from a stream of key-value pairs (later keys overwrite). -/
def pyDict {α β : Type} [DecidableEq α] (l : List (α × β)) : List (α × β) :=
  l.foldl (fun d p => pyDictInsert d p.1 p.2) []

/-- Python `int()` truncation toward zero of a rational. -/
def truncQ (q : ℚ) : Int :=
  if 0 ≤ q then ⌊q⌋ else -⌊-q⌋

/-- Python repr of a list of ints, e.g. `[1, 2]`. -/
def pyReprNatList (l : List Nat) : String :=
  "[" ++ String.intercalate ", " (l.map toString) ++ "]"

/-- Python repr of a `NameOrID`. -/
def NameOrID.pyRepr : NameOrID → String
  | .name s => "'" ++ s ++ "'"
  | .num i => toString i

/-- Python repr of a list of names or ids. -/
def pyReprNameOrIDList (l : List NameOrID) : String :=
  "[" ++ String.intercalate ", " (l.map NameOrID.pyRepr) ++ "]"

/-- Python repr of an id-to-value dict such as `\x7b6: 50\x7d`. -/
def pyReprIdValues (l : List (Nat × Value)) : String :=
  "\x7b" ++ String.intercalate ", " (l.map fun p => toString p.1 ++ ": " ++ p.2.pyRepr) ++ "\x7d"

/-- The `for n_try in range(1 + num_retry)` retry loop with `break` on comm
success.  `start` indexes the transport's per-attempt result stream; the
second `Nat` is the number of tries still allowed after the current one.
Returns the last communication result together with the stream index after
the loop, so that `index after - index before` counts transport attempts. -/
def commLoop {α : Type} (ok : α → Bool) (attempt : Nat → α) : Nat → Nat → α × Nat
  | start, 0 => (attempt start, start + 1)
  | start, n + 1 =>
    let c := attempt start
    if ok c then (c, start + 1) else commLoop ok attempt (start + 1) n

/-- Normalization policy selector (`MotorNormMode`). -/
inductive MotorNormMode where
  | degree
  | range_0_100
  | range_m100_100
  | velocity
deriving DecidableEq

/-- Per-motor calibration record (`MotorCalibration`). -/
structure MotorCalibration where
  id : Int
  drive_mode : Int
  homing_offset : Int
  range_min : Int
  range_max : Int
deriving DecidableEq

/-- Identity of one physical actuator (`Motor`). -/
structure Motor where
  id : Nat
  model : String
  norm_mode : MotorNormMode
deriving DecidableEq

/-- A per-model control table: parameter name to (address, byte width). -/
abbrev CtrlTable := List (String × (Nat × Nat))

/-- The per-vendor registry: model name to control table. -/
abbrev ModelCtrlTable := List (String × CtrlTable)

/-- `get_ctrl_table`: registry lookup, `KeyError` if the model is unregistered. -/
def get_ctrl_table (t : ModelCtrlTable) (model : String) : Except PyError CtrlTable :=
  match alistGet t model with
  | some ct => .ok ct
  | none => .error (.keyError ("Control table for model='" ++ model ++ "' not found."))

/-- `get_address`: (address, width) of a parameter, `KeyError` when absent. -/
def get_address (t : ModelCtrlTable) (model : String) (data_name : String) :
    Except PyError (Nat × Nat) :=
  match get_ctrl_table t model with
  | .error e => .error e
  | .ok ct =>
    match alistGet ct data_name with
    | some ab => .ok ab
    | none =>
      .error (.keyError ("Address for '" ++ data_name ++ "' not found in " ++ model ++
        " control table."))

/-- `assert_same_address`: all given models must resolve `data_name` to one
single address and one single width; otherwise `NotImplementedError`. -/
def assert_same_address (t : ModelCtrlTable) (motor_models : List String)
    (data_name : String) : Except PyError Unit := do
  let pairs ← motor_models.mapM (fun m => get_address t m data_name)
  let all_addr := pairs.map Prod.fst
  let all_bytes := pairs.map Prod.snd
  if all_addr.dedup.length ≠ 1 then
    .error (.notImplemented ("At least two motor models use a different address for data_name='"
      ++ data_name ++ "'"))
  else if all_bytes.dedup.length ≠ 1 then
    .error (.notImplemented
      ("At least two motor models use a different bytes representation for data_name='"
      ++ data_name ++ "'"))
  else
    .ok ()

/-- Abstract serial transport capability.  Per-attempt communication results
are streams indexed by how many transmissions of that kind have already
happened on the port, so a deterministic stub is a plain function. -/
structure Transport where
  openOk : Bool
  broadcastPing : List (Nat × Nat)
  syncReadComm : Nat → Int
  syncWriteComm : Nat → Int
  writeComm : Nat → Int × Int
  getData : Nat → Nat → Nat → Int
  getTxRxResult : Int → String
  getRxPacketError : Int → String

/-- Transmit counters, one per transport primitive.  An operation that
fails before any I/O returns its input `TxState` unchanged. -/
structure TxState where
  nSyncRead : Nat
  nSyncWrite : Nat
  nWrite : Nat
deriving DecidableEq

/-- The `MotorsBus` aggregate.  Class-level vendor data
(`model_ctrl_table`, …) and the abstract vendor hooks (`encode_value`,
`decode_value`, `split_int_to_bytes`, `half_turn_homings`) are fields,
standing for the subclass overrides.  `connected` models
`port_handler.is_open`; `comm_success`/`no_error` model `_comm_success` and
`_no_error`. -/
structure MotorsBus where
  cls_name : String
  port : String
  motors : List (String × Motor)
  calibration : List (String × MotorCalibration)
  connected : Bool
  model_ctrl_table : ModelCtrlTable
  model_resolution_table : List (String × Nat)
  model_number_table : List (String × Nat)
  normalization_required : List String
  comm_success : Int
  no_error : Int
  encode_value : Value → String → Nat → Int
  decode_value : Int → String → Nat → Int
  split_int_to_bytes : Int → Nat → List Int
  half_turn_homings : List (NameOrID × ℚ) → List (NameOrID × Int)

/-- `self.names`: insertion-ordered motor names. -/
def MotorsBus.names (bus : MotorsBus) : List String :=
  bus.motors.map (·.1)

/-- `self.models`: per-motor model strings in insertion order. -/
def MotorsBus.models (bus : MotorsBus) : List String :=
  bus.motors.map (·.2.model)

/-- `self.ids`: per-motor bus ids in insertion order. -/
def MotorsBus.ids (bus : MotorsBus) : List Nat :=
  bus.motors.map (·.2.id)

/-- The derived `_id_to_model_dict` built in `__init__`. -/
def MotorsBus.id_to_model_dict (bus : MotorsBus) : List (Nat × String) :=
  pyDict (bus.motors.map fun p => (p.2.id, p.2.model))

/-- The derived `_id_to_name_dict` built in `__init__`. -/
def MotorsBus.id_to_name_dict (bus : MotorsBus) : List (Nat × String) :=
  pyDict (bus.motors.map fun p => (p.2.id, p.1))

/-- `_id_to_model`: dict access, `KeyError` on unknown id. -/
def MotorsBus.id_to_model (bus : MotorsBus) (motor_id : Nat) : Except PyError String :=
  match alistGet bus.id_to_model_dict motor_id with
  | some m => .ok m
  | none => .error (.keyError (toString motor_id))

/-- `_id_to_name`: dict access, `KeyError` on unknown id. -/
def MotorsBus.id_to_name (bus : MotorsBus) (motor_id : Nat) : Except PyError String :=
  match alistGet bus.id_to_name_dict motor_id with
  | some n => .ok n
  | none => .error (.keyError (toString motor_id))

/-- `_get_motor_id`: a name resolves through `self.motors`, an int passes through. -/
def MotorsBus.get_motor_id (bus : MotorsBus) : NameOrID → Except PyError Nat
  | .name s =>
    match alistGet bus.motors s with
    | some m => .ok m.id
    | none => .error (.keyError s)
  | .num i => .ok i

/-- `_get_motor_model`: a name resolves through `self.motors`, an int through
the derived id-to-model dict. -/
def MotorsBus.get_motor_model (bus : MotorsBus) : NameOrID → Except PyError String
  | .name s =>
    match alistGet bus.motors s with
    | some m => .ok m.model
    | none => .error (.keyError s)
  | .num i => bus.id_to_model i

/-- Equality of two control tables as unordered maps (what `DeepDiff`
reports as "no difference"). -/
def ctrlTableEq (a b : CtrlTable) : Bool :=
  (a.all fun p => decide (alistGet b p.1 = some p.2)) &&
    (b.all fun p => decide (alistGet a p.1 = some p.2))

/-- Lazy tail scan of `_has_different_ctrl_tables`: Python's
`any(DeepDiff(first, get_ctrl_table(...)) for model in models[1:])` stops at
the first difference, so a later unregistered model is not reached. -/
def hasDiffScan (t : ModelCtrlTable) (first : CtrlTable) : List String → Except PyError Bool
  | [] => .ok false
  | m :: rest => do
    let ct ← get_ctrl_table t m
    if ctrlTableEq first ct then hasDiffScan t first rest else .ok true

/-- `_has_different_ctrl_tables`: computed from the bus alone (the source
caches it per bus with `cached_property`); `False` with fewer than two
motors, otherwise whether any model's table differs from the first one. -/
def MotorsBus.has_different_ctrl_tables (bus : MotorsBus) : Except PyError Bool :=
  match bus.models with
  | [] => .ok false
  | [_] => .ok false
  | m0 :: rest =>
    match alistGet bus.model_ctrl_table m0 with
    | none => .error (.keyError m0)
    | some first => hasDiffScan bus.model_ctrl_table first rest

/-- `_validate_motors`: duplicate ids are a `ValueError`; every model must
have a registered control table. -/
def MotorsBus._validate_motors (bus : MotorsBus) : Except PyError Unit :=
  if bus.ids.dedup.length ≠ bus.ids.length then
    .error (.valueError "Some motors have the same id!")
  else
    match bus.models.mapM (get_ctrl_table bus.model_ctrl_table) with
    | .error e => .error e
    | .ok _ => .ok ()

/-- Set equality of two id lists (Python `set(a) != set(b)` guard). -/
def natListSetEq (a b : List Nat) : Bool :=
  (a.all fun x => decide (x ∈ b)) && (b.all fun x => decide (x ∈ a))

/-- `_assert_motors_exist`: compare broadcast-ping results against the
configured motor set, raising a mismatch `RuntimeError`. -/
def MotorsBus.assert_motors_check (bus : MotorsBus) (tr : Transport) : Except PyError Unit := do
  let found := tr.broadcastPing
  let expected ← bus.motors.mapM (fun p =>
    match alistGet bus.model_number_table p.2.model with
    | some nb => Except.ok (p.2.id, nb)
    | none => Except.error (PyError.keyError p.2.model))
  if found.isEmpty || !natListSetEq (found.map (·.1)) bus.ids then
    .error (.runtimeError (bus.cls_name ++ " is supposed to have these motors but found others on port '" ++ bus.port ++ "'."))
  else
    expected.forM (fun p =>
      match alistGet found p.1 with
      | some nb =>
        if nb = p.2 then Except.ok ()
        else Except.error (PyError.runtimeError
          ("Motor id=" ++ toString p.1 ++ " is supposed to be of model_number=" ++
            toString p.2 ++ " but a model_number=" ++ toString nb ++ " was found instead for that id."))
      | none => Except.error (PyError.keyError (toString p.1)))

/-- The `DeviceAlreadyConnectedError` message of `connect`. -/
def alreadyConnectedMsg (bus : MotorsBus) : String :=
  bus.cls_name ++ "('" ++ bus.port ++ "') is already connected. Do not call `" ++
    bus.cls_name ++ ".connect()` twice."

/-- The `DeviceNotConnectedError` message of `disconnect`. -/
def notConnectedTryMsg (bus : MotorsBus) : String :=
  bus.cls_name ++ "('" ++ bus.port ++ "') is not connected. Try running `" ++
    bus.cls_name ++ ".connect()` first."

/-- The `DeviceNotConnectedError` message of `sync_read`/`sync_write`/`write`. -/
def notConnectedRunMsg (bus : MotorsBus) : String :=
  bus.cls_name ++ "('" ++ bus.port ++ "') is not connected. You need to run `" ++
    bus.cls_name ++ ".connect()`."

/-- The `ConnectionError` message of `sync_read` on retry exhaustion; `tries`
is `num_retry + 1` and `diag` the transport's diagnostic text. -/
def syncReadFailMsg (dn : String) (ids : List Nat) (tries : Nat) (diag : String) : String :=
  "Failed to sync read '" ++ dn ++ "' on motor_ids=" ++ pyReprNatList ids ++ " after " ++
    toString tries ++ " tries." ++ diag

/-- The `ConnectionError` message of `sync_write` on retry exhaustion. -/
def syncWriteFailMsg (dn : String) (iv : List (Nat × Value)) (tries : Nat) (diag : String) :
    String :=
  "Failed to sync write '" ++ dn ++ "' with ids_values=" ++ pyReprIdValues iv ++ " after " ++
    toString tries ++ " tries.\n" ++ diag

/-- The message shared by the `ConnectionError` and `RuntimeError` of `write`. -/
def writeFailMsg (dn : String) (id_ : Nat) (vr : String) (tries : Nat) (diag : String) : String :=
  "Failed to write '" ++ dn ++ "' on id_=" ++ toString id_ ++ " with '" ++ vr ++ "' after " ++
    toString tries ++ " tries.\n" ++ diag

/-- `connect`: already-connected guard, then port opening (converted to a
`ConnectionError`), then optional motor-set verification (whose
`RuntimeError` propagates uncaught, as in the source's `except` clause). -/
def MotorsBus.connect (bus : MotorsBus) (tr : Transport) (assert_motors_exist : Bool) :
    Except PyError MotorsBus :=
  if bus.connected then
    .error (.deviceAlreadyConnected (alreadyConnectedMsg bus))
  else if !tr.openOk then
    .error (.connectionError ("\nCould not connect on port '" ++ bus.port ++
      "'. Make sure you are using the correct port."))
  else if assert_motors_exist then
    match bus.assert_motors_check tr with
    | .error e => .error e
    | .ok _ => .ok { bus with connected := true }
  else
    .ok { bus with connected := true }

/-- `disconnect`: not-connected guard, then close the port. -/
def MotorsBus.disconnect (bus : MotorsBus) : Except PyError MotorsBus :=
  if !bus.connected then
    .error (.deviceNotConnected (notConnectedTryMsg bus))
  else
    .ok { bus with connected := false }

/-- The shapes a `motors` argument can take: `None`, one name/id, or a list. -/
inductive MotorsArg where
  | all
  | single (m : NameOrID)
  | list (l : List NameOrID)

/-- The loop body of `_normalize` for one `(id, raw)` entry: clamp the raw
value into the calibrated range and map it linearly onto the mode's
interval.  Python's float division raises `ZeroDivisionError` on an empty
range; `DEGREE`/`VELOCITY` raise a bare `NotImplementedError`. -/
def MotorsBus.normalize_entry (bus : MotorsBus) (p : Nat × Int) :
    Except PyError (Nat × ℚ) := do
  let name ← bus.id_to_name p.1
  let cal ← (match alistGet bus.calibration name with
    | some c => Except.ok c
    | none => Except.error (PyError.keyError name))
  let min_ := cal.range_min
  let max_ := cal.range_max
  let bounded_val : Int := min max_ (max min_ p.2)
  let motor ← (match alistGet bus.motors name with
    | some m => Except.ok m
    | none => Except.error (PyError.keyError name))
  match motor.norm_mode with
  | .range_m100_100 =>
    if max_ = min_ then Except.error PyError.zeroDivision
    else Except.ok (p.1, (((bounded_val : ℚ) - (min_ : ℚ)) / ((max_ : ℚ) - (min_ : ℚ))) * 200 - 100)
  | .range_0_100 =>
    if max_ = min_ then Except.error PyError.zeroDivision
    else Except.ok (p.1, (((bounded_val : ℚ) - (min_ : ℚ)) / ((max_ : ℚ) - (min_ : ℚ))) * 100)
  | _ => Except.error (PyError.notImplemented "")

/-- `_normalize`: the entry body applied over the id-to-raw-value dict. -/
def MotorsBus._normalize (bus : MotorsBus) (_data_name : String)
    (ids_values : List (Nat × Int)) : Except PyError (List (Nat × ℚ)) :=
  ids_values.mapM bus.normalize_entry

/-- The loop body of `_unnormalize` for one `(id, normalized)` entry: clamp
the normalized value into the mode's valid interval, map back to raw
ticks, and truncate to an integer with `int()`. -/
def MotorsBus.unnormalize_entry (bus : MotorsBus) (p : Nat × ℚ) :
    Except PyError (Nat × Int) := do
  let name ← bus.id_to_name p.1
  let cal ← (match alistGet bus.calibration name with
    | some c => Except.ok c
    | none => Except.error (PyError.keyError name))
  let min_ := cal.range_min
  let max_ := cal.range_max
  let motor ← (match alistGet bus.motors name with
    | some m => Except.ok m
    | none => Except.error (PyError.keyError name))
  match motor.norm_mode with
  | .range_m100_100 =>
    let bounded_val : ℚ := min 100 (max (-100) p.2)
    Except.ok (p.1, truncQ (((bounded_val + 100) / 200) * ((max_ : ℚ) - (min_ : ℚ)) + (min_ : ℚ)))
  | .range_0_100 =>
    let bounded_val : ℚ := min 100 (max 0 p.2)
    Except.ok (p.1, truncQ ((bounded_val / 100) * ((max_ : ℚ) - (min_ : ℚ)) + (min_ : ℚ)))
  | _ => Except.error (PyError.notImplemented "")

/-- `_unnormalize`: the entry body applied over the id-to-value dict. -/
def MotorsBus._unnormalize (bus : MotorsBus) (_data_name : String)
    (ids_values : List (Nat × ℚ)) : Except PyError (List (Nat × Int)) :=
  ids_values.mapM bus.unnormalize_entry

/-- Key-map resolution at the top of `sync_read`: all motors, one name/id, or
a list, keyed by whatever identifier form the caller supplied. -/
def MotorsBus.sync_read_keys (bus : MotorsBus) : MotorsArg → Except PyError (List (Nat × NameOrID))
  | .all => .ok (pyDict (bus.motors.map fun p => (p.2.id, NameOrID.name p.1)))
  | .single m => (bus.get_motor_id m).map fun i => [(i, m)]
  | .list l => (l.mapM fun m => (bus.get_motor_id m).map fun i => (i, m)).map pyDict

/-- The pre-transmission part shared by `_sync_read` and `_sync_write`:
cross-model guard (gated on the per-bus `_has_different_ctrl_tables`), model
resolution from the first target id, and address lookup.  Any failure here
happens before any transport transmission. -/
def MotorsBus.group_guard (bus : MotorsBus) (data_name : String) (motor_ids : List Nat)
    (model? : Option String) : Except PyError (Nat × Nat) := do
  let diff ← bus.has_different_ctrl_tables
  if diff then
    let models ← motor_ids.mapM bus.id_to_model
    assert_same_address bus.model_ctrl_table models data_name
  else
    pure ()
  let model ← (match model? with
    | some m => Except.ok m
    | none =>
      match motor_ids with
      | [] => Except.error PyError.stopIteration
      | i :: _ => bus.id_to_model i)
  get_address bus.model_ctrl_table model data_name

/-- `_sync_read`: guard, then one group-read transaction retried up to
`num_retry` extra times, then per-id fetch and decode (even on comm
failure, as in the source). -/
def MotorsBus._sync_read (bus : MotorsBus) (tr : Transport) (data_name : String)
    (motor_ids : List Nat) (model? : Option String) (num_retry : Nat) (s : TxState) :
    Except PyError (Int × List (Nat × Int)) × TxState :=
  match bus.group_guard data_name motor_ids model? with
  | .error e => (.error e, s)
  | .ok (addr, n_bytes) =>
    let r := commLoop (fun c => decide (c = bus.comm_success)) tr.syncReadComm s.nSyncRead num_retry
    let values := motor_ids.map fun i =>
      (i, bus.decode_value (tr.getData i addr n_bytes) data_name n_bytes)
    (.ok (r.1, values), { s with nSyncRead := r.2 })

/-- `sync_read`: connected guard, key-map resolution, whole-group retried
transaction, connectivity error carrying the attempt count and the
transport diagnostic on exhaustion, optional normalization, and re-keying
of the result by the caller's identifiers. -/
def MotorsBus.sync_read (bus : MotorsBus) (tr : Transport) (data_name : String)
    (motors : MotorsArg) (normalize : Bool) (num_retry : Nat) (s : TxState) :
    Except PyError (List (NameOrID × ℚ)) × TxState :=
  if !bus.connected then
    (.error (.deviceNotConnected (notConnectedRunMsg bus)), s)
  else
    match bus.sync_read_keys motors with
    | .error e => (.error e, s)
    | .ok id_key_map =>
      let motor_ids := id_key_map.map Prod.fst
      match bus._sync_read tr data_name motor_ids none num_retry s with
      | (.error e, s') => (.error e, s')
      | (.ok (comm, raw), s') =>
        if comm ≠ bus.comm_success then
          (.error (.connectionError
            (syncReadFailMsg data_name motor_ids (num_retry + 1) (tr.getTxRxResult comm))), s')
        else
          match (if normalize ∧ data_name ∈ bus.normalization_required
            then bus._normalize data_name raw
            else .ok (raw.map fun p => (p.1, (p.2 : ℚ)))) with
          | .error e => (.error e, s')
          | .ok nv =>
            match nv.mapM (fun p =>
              match alistGet id_key_map p.1 with
              | some k => Except.ok (k, p.2)
              | none => Except.error (PyError.keyError (toString p.1))) with
            | .error e => (.error e, s')
            | .ok out => (.ok out, s')

/-- The `values` argument of `sync_write`: one scalar or a per-motor dict. -/
inductive SyncWriteValues where
  | scalar (v : Value)
  | dictV (l : List (NameOrID × Value))

/-- The expansion step at the top of `sync_write`.  The source tests
`isinstance(values, int)` — so a float scalar is neither an int nor a
dict and falls into the `TypeError` branch, despite the annotated type
`Value = int | float`. -/
def MotorsBus.sync_write_expand (bus : MotorsBus) :
    SyncWriteValues → Except PyError (List (Nat × Value))
  | .scalar (.vint v) => .ok (pyDict (bus.ids.map fun i => (i, Value.vint v)))
  | .dictV l => (l.mapM fun p => (bus.get_motor_id p.1).map fun i => (i, p.2)).map pyDict
  | .scalar (.vfloat _) => .error (.typeError "'values' is expected to be a single value or a dict.")

/-- `_sync_write`: cross-model guard, address lookup, per-id encoding, then
one group-write transaction retried up to `num_retry` extra times,
returning the final communication status. -/
def MotorsBus._sync_write (bus : MotorsBus) (tr : Transport) (data_name : String)
    (ids_values : List (Nat × Value)) (num_retry : Nat) (s : TxState) :
    Except PyError Int × TxState :=
  match bus.group_guard data_name (ids_values.map Prod.fst) none with
  | .error e => (.error e, s)
  | .ok (_addr, n_bytes) =>
    let _encoded := ids_values.map fun p => (p.1, bus.encode_value p.2 data_name n_bytes)
    let r := commLoop (fun c => decide (c = bus.comm_success)) tr.syncWriteComm s.nSyncWrite num_retry
    (.ok r.1, { s with nSyncWrite := r.2 })

/-- `sync_write`: connected guard, scalar/dict expansion, optional
unnormalization (the source's extra `self.calibration is not None`
conjunct is always true, since `__init__` stores a dict), group write, and
a connectivity error carrying the attempt count and the transport
diagnostic on exhaustion. -/
def MotorsBus.sync_write (bus : MotorsBus) (tr : Transport) (data_name : String)
    (values : SyncWriteValues) (normalize : Bool) (num_retry : Nat) (s : TxState) :
    Except PyError Unit × TxState :=
  if !bus.connected then
    (.error (.deviceNotConnected (notConnectedRunMsg bus)), s)
  else
    match bus.sync_write_expand values with
    | .error e => (.error e, s)
    | .ok ids_values0 =>
      match (if normalize ∧ data_name ∈ bus.normalization_required
        then (bus._unnormalize data_name (ids_values0.map fun p => (p.1, p.2.toQ))).map
          (fun l => l.map fun p => (p.1, Value.vint p.2))
        else .ok ids_values0) with
      | .error e => (.error e, s)
      | .ok ids_values =>
        match bus._sync_write tr data_name ids_values num_retry s with
        | (.error e, s') => (.error e, s')
        | (.ok comm, s') =>
          if comm ≠ bus.comm_success then
            (.error (.connectionError
              (syncWriteFailMsg data_name ids_values (num_retry + 1) (tr.getTxRxResult comm))), s')
          else (.ok (), s')

/-- The pre-transmission part of `_write`: model and address resolution. -/
def MotorsBus.write_guard (bus : MotorsBus) (data_name : String) (motor_id : Nat) :
    Except PyError (Nat × Nat) := do
  let model ← bus.id_to_model motor_id
  get_address bus.model_ctrl_table model data_name

/-- `_write`: guard, encode and split, then one single-motor write retried up
to `num_retry` extra times, returning the final `(comm, error)` pair. -/
def MotorsBus._write (bus : MotorsBus) (tr : Transport) (data_name : String)
    (motor_id : Nat) (value : Value) (num_retry : Nat) (s : TxState) :
    Except PyError (Int × Int) × TxState :=
  match bus.write_guard data_name motor_id with
  | .error e => (.error e, s)
  | .ok (_addr, n_bytes) =>
    let v := bus.encode_value value data_name n_bytes
    let _data := bus.split_int_to_bytes v n_bytes
    let r := commLoop (fun p => decide (p.1 = bus.comm_success)) tr.writeComm s.nWrite num_retry
    (.ok r.1, { s with nWrite := r.2 })

/-- `write`: connected guard, id resolution, optional single-value
unnormalization, retried single write; a connectivity error (with attempt
count and transport diagnostic) on comm exhaustion, and a device-reported
`RuntimeError` (with decoded error text) on a flagged device fault. -/
def MotorsBus.write (bus : MotorsBus) (tr : Transport) (data_name : String)
    (motor : NameOrID) (value : Value) (normalize : Bool) (num_retry : Nat) (s : TxState) :
    Except PyError Unit × TxState :=
  if !bus.connected then
    (.error (.deviceNotConnected (notConnectedRunMsg bus)), s)
  else
    match bus.get_motor_id motor with
    | .error e => (.error e, s)
    | .ok id_ =>
      match (if normalize ∧ data_name ∈ bus.normalization_required
        then (bus._unnormalize data_name [(id_, value.toQ)]).bind (fun l =>
          match alistGet l id_ with
          | some v => .ok (Value.vint v)
          | none => .error (.keyError (toString id_)))
        else .ok value) with
      | .error e => (.error e, s)
      | .ok v =>
        match bus._write tr data_name id_ v num_retry s with
        | (.error e, s') => (.error e, s')
        | (.ok (comm, err), s') =>
          if comm ≠ bus.comm_success then
            (.error (.connectionError
              (writeFailMsg data_name id_ v.pyRepr (num_retry + 1) (tr.getTxRxResult comm))), s')
          else if err ≠ bus.no_error then
            (.error (.runtimeError
              (writeFailMsg data_name id_ v.pyRepr (num_retry + 1) (tr.getRxPacketError err))), s')
          else (.ok (), s')

/-- The lenient `motors`-argument dispatch shared by `reset_calibration`,
`disable_torque`, `enable_torque` and `record_ranges_of_motion`: `None`
means all names, a single name/id is wrapped, a list passes through (the
source's final `TypeError` branch is unreachable for these three shapes). -/
def MotorsBus.motors_arg_lenient (bus : MotorsBus) : MotorsArg → List NameOrID
  | .all => bus.names.map NameOrID.name
  | .single m => [m]
  | .list l => l

/-- `disable_torque`: dispatch then hand the list to the abstract
`_disable_torque` override; the resolved list is returned to stand for
that hand-off. -/
def MotorsBus.disable_torque (bus : MotorsBus) (motors : MotorsArg) :
    Except PyError (List NameOrID) :=
  .ok (bus.motors_arg_lenient motors)

/-- `enable_torque`: dispatch then hand the list to the abstract
`_enable_torque` override; the resolved list is returned to stand for
that hand-off. -/
def MotorsBus.enable_torque (bus : MotorsBus) (motors : MotorsArg) :
    Except PyError (List NameOrID) :=
  .ok (bus.motors_arg_lenient motors)

/-- The per-motor body of `reset_calibration`: look up the model's
resolution, then write `Homing_Offset=0`, `Min_Position_Limit=0`,
`Max_Position_Limit=resolution-1`, all with `normalize=False`. -/
def MotorsBus.reset_calibration_loop (bus : MotorsBus) (tr : Transport) :
    List NameOrID → TxState → Except PyError Unit × TxState
  | [], s => (.ok (), s)
  | motor :: rest, s =>
    match bus.get_motor_model motor with
    | .error e => (.error e, s)
    | .ok model =>
      match alistGet bus.model_resolution_table model with
      | none => (.error (.keyError model), s)
      | some res =>
        match bus.write tr "Homing_Offset" motor (.vint 0) false 0 s with
        | (.error e, s1) => (.error e, s1)
        | (.ok _, s1) =>
          match bus.write tr "Min_Position_Limit" motor (.vint 0) false 0 s1 with
          | (.error e, s2) => (.error e, s2)
          | (.ok _, s2) =>
            match bus.write tr "Max_Position_Limit" motor (.vint ((res : Int) - 1)) false 0 s2 with
            | (.error e, s3) => (.error e, s3)
            | (.ok _, s3) => bus.reset_calibration_loop tr rest s3

/-- `reset_calibration`: lenient dispatch, then the write loop. -/
def MotorsBus.reset_calibration (bus : MotorsBus) (tr : Transport) (motors : MotorsArg)
    (s : TxState) : Except PyError Unit × TxState :=
  bus.reset_calibration_loop tr (bus.motors_arg_lenient motors) s

/-- The write loop at the end of `set_half_turn_homings` (`normalize`
defaults to `True` there). -/
def MotorsBus.write_homings_loop (bus : MotorsBus) (tr : Transport) :
    List (NameOrID × Int) → TxState → Except PyError Unit × TxState
  | [], s => (.ok (), s)
  | (motor, off) :: rest, s =>
    match bus.write tr "Homing_Offset" motor (.vint off) true 0 s with
    | (.error e, s1) => (.error e, s1)
    | (.ok _, s1) => bus.write_homings_loop tr rest s1

/-- Steps 1-4 of `set_half_turn_homings` once the argument is resolved:
reset calibration, read raw present positions, compute the offsets with
the vendor hook, write them back, and return them. -/
def MotorsBus.set_half_turn_body (bus : MotorsBus) (tr : Transport) (ms : List NameOrID)
    (s : TxState) : Except PyError (List (NameOrID × Int)) × TxState :=
  match bus.reset_calibration tr (.list ms) s with
  | (.error e, s1) => (.error e, s1)
  | (.ok _, s1) =>
    match bus.sync_read tr "Present_Position" (.list ms) false 0 s1 with
    | (.error e, s2) => (.error e, s2)
    | (.ok actual_positions, s2) =>
      let homing_offsets := bus.half_turn_homings actual_positions
      match bus.write_homings_loop tr homing_offsets s2 with
      | (.error e, s3) => (.error e, s3)
      | (.ok _, s3) => (.ok homing_offsets, s3)

/-- `set_half_turn_homings`: unlike the lenient dispatch, its `else` branch
raises `TypeError` for anything that is not `None` or a single name/id —
in particular for every list — before any transport I/O. -/
def MotorsBus.set_half_turn_homings (bus : MotorsBus) (tr : Transport) (motors : MotorsArg)
    (s : TxState) : Except PyError (List (NameOrID × Int)) × TxState :=
  match motors with
  | .all => bus.set_half_turn_body tr (bus.names.map NameOrID.name) s
  | .single m => bus.set_half_turn_body tr [m] s
  | .list l => (.error (.typeError (pyReprNameOrIDList l)), s)

/-- One update of the running min/max maps in `record_ranges_of_motion`. -/
def updateBounds (positions bounds : List (NameOrID × ℚ)) (pick : ℚ → ℚ → ℚ) :
    Except PyError (List (NameOrID × ℚ)) :=
  bounds.mapM fun p =>
    match alistGet positions p.1 with
    | some v => Except.ok (p.1, pick v p.2)
    | none => Except.error (PyError.keyError p.1.pyRepr)

/-- The `while True` sampling loop of `record_ranges_of_motion`;
`countdown` is the number of further iterations until the operator's stop
signal (`enter_pressed`) is observed, which makes the interactive loop a
total function of that external input. -/
def MotorsBus.record_loop (bus : MotorsBus) (tr : Transport) (ms : List NameOrID) :
    Nat → List (NameOrID × ℚ) → List (NameOrID × ℚ) → TxState →
    Except PyError (List (NameOrID × ℚ) × List (NameOrID × ℚ)) × TxState
  | countdown, mins, maxes, s =>
    match bus.sync_read tr "Present_Position" (.list ms) false 0 s with
    | (.error e, s') => (.error e, s')
    | (.ok positions, s') =>
      match updateBounds positions mins min, updateBounds positions maxes max with
      | .error e, _ => (.error e, s')
      | _, .error e => (.error e, s')
      | .ok mins', .ok maxes' =>
        match countdown with
        | 0 => (.ok (mins', maxes'), s')
        | cd + 1 => bus.record_loop tr ms cd mins' maxes' s'

/-- The body of `record_ranges_of_motion` once the argument is resolved:
one initial read seeds both bounds, then the sampling loop runs until the
stop signal. -/
def MotorsBus.record_body (bus : MotorsBus) (tr : Transport) (ms : List NameOrID)
    (countdown : Nat) (s : TxState) :
    Except PyError (List (NameOrID × ℚ) × List (NameOrID × ℚ)) × TxState :=
  match bus.sync_read tr "Present_Position" (.list ms) false 0 s with
  | (.error e, s') => (.error e, s')
  | (.ok start_positions, s') =>
    bus.record_loop tr ms countdown start_positions start_positions s'

/-- `record_ranges_of_motion`: lenient dispatch, then the sampling body. -/
def MotorsBus.record_ranges_of_motion (bus : MotorsBus) (tr : Transport) (motors : MotorsArg)
    (countdown : Nat) (s : TxState) :
    Except PyError (List (NameOrID × ℚ) × List (NameOrID × ℚ)) × TxState :=
  bus.record_body tr (bus.motors_arg_lenient motors) countdown s

/-- The per-entry write loop of `write_calibration` (`normalize` defaults to
`True` in those `write` calls). -/
def MotorsBus.write_calib_loop (bus : MotorsBus) (tr : Transport) :
    List (String × MotorCalibration) → TxState → Except PyError Unit × TxState
  | [], s => (.ok (), s)
  | (motor, cal) :: rest, s =>
    match bus.write tr "Homing_Offset" (.name motor) (.vint cal.homing_offset) true 0 s with
    | (.error e, s1) => (.error e, s1)
    | (.ok _, s1) =>
      match bus.write tr "Min_Position_Limit" (.name motor) (.vint cal.range_min) true 0 s1 with
      | (.error e, s2) => (.error e, s2)
      | (.ok _, s2) =>
        match bus.write tr "Max_Position_Limit" (.name motor) (.vint cal.range_max) true 0 s2 with
        | (.error e, s3) => (.error e, s3)
        | (.ok _, s3) => bus.write_calib_loop tr rest s3

/-- `write_calibration`: push every entry of the given dict to the motors,
then adopt the dict as `self.calibration` unchanged — there is no check
that its key set matches the bus's configured motors. -/
def MotorsBus.write_calibration (bus : MotorsBus) (tr : Transport)
    (calibration_dict : List (String × MotorCalibration)) (s : TxState) :
    Except PyError MotorsBus × TxState :=
  match bus.write_calib_loop tr calibration_dict s with
  | (.error e, s') => (.error e, s')
  | (.ok _, s') => (.ok { bus with calibration := calibration_dict }, s')

theorem exceptBind_ok {ε α β : Type} (a : α) (f : α → Except ε β) :
    (Except.ok a : Except ε α) >>= f = f a := rfl

theorem exceptBind_error {ε α β : Type} (e : ε) (f : α → Except ε β) :
    (Except.error e : Except ε α) >>= f = Except.error e := rfl

theorem commLoop_all_fail {α : Type} (ok : α → Bool) (attempt : Nat → α) :
    ∀ (n start : Nat), (∀ k, k ≤ n → ok (attempt (start + k)) = false) →
      commLoop ok attempt start n = (attempt (start + n), start + n + 1) := by
  intro n
  induction n with
  | zero => intro start _; simp [commLoop]
  | succ m ih =>
    intro start h
    have h0 : ok (attempt start) = false := by
      have := h 0 (Nat.zero_le _)
      simpa using this
    have step : commLoop ok attempt start (m + 1) = commLoop ok attempt (start + 1) m := by
      simp [commLoop, h0]
    rw [step, ih (start + 1) (fun k hk => by
      have := h (k + 1) (Nat.succ_le_succ hk)
      simpa [Nat.add_assoc, Nat.add_comm 1 k] using this)]
    have he : start + 1 + m = start + (m + 1) := by omega
    rw [he]

theorem commLoop_first_success {α : Type} (ok : α → Bool) (attempt : Nat → α) :
    ∀ (j n start : Nat), j ≤ n → ok (attempt (start + j)) = true →
      (∀ k, k < j → ok (attempt (start + k)) = false) →
      commLoop ok attempt start n = (attempt (start + j), start + j + 1) := by
  intro j
  induction j with
  | zero =>
    intro n start _ hok _
    cases n with
    | zero => simp [commLoop]
    | succ m => simp only [Nat.add_zero] at hok; simp [commLoop, hok]
  | succ i ih =>
    intro n start hjn hok hbefore
    cases n with
    | zero => exact absurd hjn (by omega)
    | succ m =>
      have h0 : ok (attempt start) = false := by
        have := hbefore 0 (Nat.succ_pos i)
        simpa using this
      have step : commLoop ok attempt start (m + 1) = commLoop ok attempt (start + 1) m := by
        simp [commLoop, h0]
      rw [step, ih m (start + 1) (by omega)
        (by rw [show start + 1 + i = start + (i + 1) by omega]; exact hok)
        (fun k hk => by
          have := hbefore (k + 1) (by omega)
          rw [show start + 1 + k = start + (k + 1) by omega]; exact this)]
      have he : start + 1 + i = start + (i + 1) := by omega
      rw [he]

theorem alistGet_eq_none_of_not_mem {α β : Type} [DecidableEq α] (l : List (α × β)) (a : α)
    (h : a ∉ l.map Prod.fst) : alistGet l a = none := by
  induction l with
  | nil => rfl
  | cons p rest ih =>
    simp only [List.map_cons, List.mem_cons, not_or] at h
    have : p.1 ≠ a := fun he => h.1 he.symm
    simp [alistGet, this, ih h.2]

theorem alistGet_isSome_of_mem {α β : Type} [DecidableEq α] (l : List (α × β)) (a : α)
    (h : a ∈ l.map Prod.fst) : ∃ b, alistGet l a = some b := by
  induction l with
  | nil => simp at h
  | cons p rest ih =>
    by_cases hp : p.1 = a
    · exact ⟨p.2, by simp [alistGet, hp]⟩
    · have : a ∈ rest.map Prod.fst := by
        simp only [List.map_cons, List.mem_cons] at h
        exact h.resolve_left (fun he => hp he.symm)
      obtain ⟨b, hb⟩ := ih this
      exact ⟨b, by simp [alistGet, hp, hb]⟩

theorem pyDict_foldl_eq {α β : Type} [DecidableEq α] :
    ∀ (l acc : List (α × β)), (((acc ++ l).map Prod.fst).Nodup) →
      l.foldl (fun d p => pyDictInsert d p.1 p.2) acc = acc ++ l := by
  intro l
  induction l with
  | nil => intro acc _; simp
  | cons p rest ih =>
    intro acc h
    have hnotin : p.1 ∉ acc.map Prod.fst := by
      intro hmem
      have : ¬ ((acc ++ p :: rest).map Prod.fst).Nodup := by
        simp only [List.map_append, List.map_cons]
        intro hnd
        have := (List.nodup_append.mp hnd).2.2
        exact this hmem (List.mem_cons_self _ _)
      exact this h
    have hins : pyDictInsert acc p.1 p.2 = acc ++ [p] := by
      simp [pyDictInsert, alistGet_eq_none_of_not_mem acc p.1 hnotin]
    have hre : acc ++ p :: rest = (acc ++ [p]) ++ rest := by simp
    calc (p :: rest).foldl (fun d q => pyDictInsert d q.1 q.2) acc
        = rest.foldl (fun d q => pyDictInsert d q.1 q.2) (acc ++ [p]) := by
          simp [List.foldl_cons, hins]
      _ = (acc ++ [p]) ++ rest := ih (acc ++ [p]) (by rw [← hre]; exact h)
      _ = acc ++ p :: rest := by simp

theorem pyDict_eq_self {α β : Type} [DecidableEq α] (l : List (α × β))
    (h : (l.map Prod.fst).Nodup) : pyDict l = l := by
  have := pyDict_foldl_eq l [] (by simpa using h)
  simpa [pyDict] using this

theorem dedup_length_ne_of_not_nodup {α : Type} [DecidableEq α] (l : List α)
    (h : ¬ l.Nodup) : l.dedup.length ≠ l.length := by
  intro hlen
  have heq : l.dedup = l := List.Sublist.eq_of_length (List.dedup_sublist l) hlen
  exact h (heq ▸ l.nodup_dedup)

theorem dedup_length_ne_one_of_two_mem {α : Type} [DecidableEq α] {l : List α} {a b : α}
    (ha : a ∈ l) (hb : b ∈ l) (hab : a ≠ b) : l.dedup.length ≠ 1 := by
  intro hlen
  obtain ⟨x, hx⟩ := List.length_eq_one.mp hlen
  have hax : a = x := by
    have : a ∈ l.dedup := (List.mem_dedup).mpr ha
    rw [hx] at this; simpa using this
  have hbx : b = x := by
    have : b ∈ l.dedup := (List.mem_dedup).mpr hb
    rw [hx] at this; simpa using this
  exact hab (hax.trans hbx.symm)

theorem two_distinct_of_dedup_length {α : Type} [DecidableEq α] {l : List α}
    (h : 2 ≤ l.dedup.length) : ∃ a b, a ∈ l ∧ b ∈ l ∧ a ≠ b := by
  match hd : l.dedup with
  | [] => rw [hd] at h; simp at h
  | [x] => rw [hd] at h; simp at h
  | x :: y :: rest =>
    have hnd : (x :: y :: rest).Nodup := hd ▸ l.nodup_dedup
    have hxy : x ≠ y := by
      intro he
      exact (List.nodup_cons.mp hnd).1 (he ▸ List.mem_cons_self y rest)
    have hxl : x ∈ l := by
      have hx : x ∈ l.dedup := by rw [hd]; exact List.mem_cons_self _ _
      exact List.mem_dedup.mp hx
    have hyl : y ∈ l := by
      have hy : y ∈ l.dedup := by rw [hd]; simp
      exact List.mem_dedup.mp hy
    exact ⟨x, y, hxl, hyl, hxy⟩

theorem mapM_ok_of_forall {ε α β : Type} (f : α → Except ε β) :
    ∀ (l : List α), (∀ a ∈ l, ∃ b, f a = .ok b) → ∃ out, l.mapM f = .ok out := by
  intro l
  induction l with
  | nil => intro _; exact ⟨[], by rw [List.mapM_nil]; rfl⟩
  | cons a rest ih =>
    intro h
    obtain ⟨b, hb⟩ := h a (List.mem_cons_self a rest)
    obtain ⟨out, hout⟩ := ih (fun x hx => h x (List.mem_cons_of_mem a hx))
    exact ⟨b :: out, by rw [List.mapM_cons, hb, exceptBind_ok, hout, exceptBind_ok]; rfl⟩

theorem mapM_error_of_mem {ε α β : Type} [DecidableEq ε] (f : α → Except ε β) (e : ε) :
    ∀ (l : List α), (∀ a ∈ l, f a = .error e ∨ ∃ b, f a = .ok b) →
      (∃ a ∈ l, f a = .error e) → l.mapM f = .error e := by
  intro l
  induction l with
  | nil => intro _ hw; simp at hw
  | cons a rest ih =>
    intro hall hw
    rcases hall a (List.mem_cons_self a rest) with herr | ⟨b, hb⟩
    · rw [List.mapM_cons, herr, exceptBind_error]
    · have hwrest : ∃ x ∈ rest, f x = .error e := by
        obtain ⟨x, hx, hfx⟩ := hw
        rcases List.mem_cons.mp hx with rfl | hxr
        · rw [hb] at hfx; exact absurd hfx (by simp)
        · exact ⟨x, hxr, hfx⟩
      rw [List.mapM_cons, hb, exceptBind_ok,
        ih (fun x hx => hall x (List.mem_cons_of_mem a hx)) hwrest, exceptBind_error]

/-- Decidable check that one id fully resolves for normalization: its name,
calibration and motor exist, and (for the supported affine modes) the
calibrated range is nonempty so the division is defined. -/
def MotorsBus.normEntryOk (bus : MotorsBus) (i : Nat) : Bool :=
  match bus.id_to_name i with
  | .error _ => false
  | .ok name =>
    match alistGet bus.calibration name with
    | none => false
    | some cal =>
      match alistGet bus.motors name with
      | none => false
      | some motor =>
        match motor.norm_mode with
        | .range_m100_100 => decide (cal.range_max ≠ cal.range_min)
        | .range_0_100 => decide (cal.range_max ≠ cal.range_min)
        | _ => true

/-- Decidable check that an id's motor uses one of the unsupported
normalization modes (`DEGREE` or `VELOCITY`). -/
def MotorsBus.unsupportedMode (bus : MotorsBus) (i : Nat) : Bool :=
  match bus.id_to_name i with
  | .error _ => false
  | .ok name =>
    match alistGet bus.motors name with
    | none => false
    | some motor =>
      match motor.norm_mode with
      | .degree => true
      | .velocity => true
      | _ => false

theorem isOk_exists {ε α : Type} (e : Except ε α) (h : e.isOk = true) :
    ∃ b, e = .ok b := by
  cases e with
  | error x => simp [Except.isOk, Except.toBool] at h
  | ok b => exact ⟨b, rfl⟩

theorem normalize_entry_spec (bus : MotorsBus) (p : Nat × Int)
    (h : bus.normEntryOk p.1 = true) :
    (bus.unsupportedMode p.1 = true → bus.normalize_entry p = .error (.notImplemented "")) ∧
    (bus.unsupportedMode p.1 = false → ∃ b, bus.normalize_entry p = .ok b) := by
  unfold MotorsBus.normEntryOk at h
  unfold MotorsBus.unsupportedMode
  cases hn : bus.id_to_name p.1 with
  | error e => rw [hn] at h; simp at h
  | ok name =>
    rw [hn] at h
    dsimp only at h ⊢
    cases hc : alistGet bus.calibration name with
    | none => rw [hc] at h; simp at h
    | some cal =>
      rw [hc] at h
      dsimp only at h
      cases hm : alistGet bus.motors name with
      | none => rw [hm] at h; simp at h
      | some motor =>
        dsimp only at h ⊢
        cases hmode : motor.norm_mode with
        | degree =>
          refine ⟨fun _ => ?_, fun hfalse => by simp at hfalse⟩
          simp [MotorsBus.normalize_entry, hn, hc, hm, hmode, exceptBind_ok]
        | velocity =>
          refine ⟨fun _ => ?_, fun hfalse => by simp at hfalse⟩
          simp [MotorsBus.normalize_entry, hn, hc, hm, hmode, exceptBind_ok]
        | range_m100_100 =>
          rw [hm] at h
          dsimp only at h
          rw [hmode] at h
          have hne : cal.range_max ≠ cal.range_min := by simpa using h
          refine ⟨fun htrue => by simp at htrue, fun _ => ?_⟩
          exact isOk_exists _ (by
            simp [MotorsBus.normalize_entry, hn, hc, hm, hmode, exceptBind_ok, hne,
              Except.isOk, Except.toBool])
        | range_0_100 =>
          rw [hm] at h
          dsimp only at h
          rw [hmode] at h
          have hne : cal.range_max ≠ cal.range_min := by simpa using h
          refine ⟨fun htrue => by simp at htrue, fun _ => ?_⟩
          exact isOk_exists _ (by
            simp [MotorsBus.normalize_entry, hn, hc, hm, hmode, exceptBind_ok, hne,
              Except.isOk, Except.toBool])

theorem unnormalize_entry_spec (bus : MotorsBus) (p : Nat × ℚ)
    (h : bus.normEntryOk p.1 = true) :
    (bus.unsupportedMode p.1 = true → bus.unnormalize_entry p = .error (.notImplemented "")) ∧
    (bus.unsupportedMode p.1 = false → ∃ b, bus.unnormalize_entry p = .ok b) := by
  unfold MotorsBus.normEntryOk at h
  unfold MotorsBus.unsupportedMode
  cases hn : bus.id_to_name p.1 with
  | error e => rw [hn] at h; simp at h
  | ok name =>
    rw [hn] at h
    dsimp only at h ⊢
    cases hc : alistGet bus.calibration name with
    | none => rw [hc] at h; simp at h
    | some cal =>
      rw [hc] at h
      dsimp only at h
      cases hm : alistGet bus.motors name with
      | none => rw [hm] at h; simp at h
      | some motor =>
        dsimp only at h ⊢
        cases hmode : motor.norm_mode with
        | degree =>
          refine ⟨fun _ => ?_, fun hfalse => by simp at hfalse⟩
          simp [MotorsBus.unnormalize_entry, hn, hc, hm, hmode, exceptBind_ok]
        | velocity =>
          refine ⟨fun _ => ?_, fun hfalse => by simp at hfalse⟩
          simp [MotorsBus.unnormalize_entry, hn, hc, hm, hmode, exceptBind_ok]
        | range_m100_100 =>
          refine ⟨fun htrue => by simp at htrue, fun _ => ?_⟩
          exact isOk_exists _ (by
            simp [MotorsBus.unnormalize_entry, hn, hc, hm, hmode, exceptBind_ok,
              Except.isOk, Except.toBool])
        | range_0_100 =>
          refine ⟨fun htrue => by simp at htrue, fun _ => ?_⟩
          exact isOk_exists _ (by
            simp [MotorsBus.unnormalize_entry, hn, hc, hm, hmode, exceptBind_ok,
              Except.isOk, Except.toBool])

/-- A concrete control table used by the example bus. -/
def ctrlTW : CtrlTable :=
  [("Homing_Offset", (31, 2)), ("Min_Position_Limit", (9, 2)), ("Max_Position_Limit", (11, 2)),
    ("Goal_Position", (56, 2)), ("Present_Position", (58, 2))]

/-- A concrete connected two-motor bus used by the witnesses. -/
def busW : MotorsBus :=
  { cls_name := "FeetechMotorsBus"
    port := "COM1"
    motors := [("wrist", ⟨6, "sts3215", .range_m100_100⟩), ("gripper", ⟨1, "sts3215", .range_0_100⟩)]
    calibration := [("wrist", ⟨6, 0, 0, 0, 4095⟩), ("gripper", ⟨1, 0, 0, 0, 4095⟩)]
    connected := true
    model_ctrl_table := [("sts3215", ctrlTW)]
    model_resolution_table := [("sts3215", 4096)]
    model_number_table := [("sts3215", 777)]
    normalization_required := ["Goal_Position", "Present_Position"]
    comm_success := 0
    no_error := 0
    encode_value := fun v _ _ => truncQ v.toQ
    decode_value := fun r _ _ => r
    split_int_to_bytes := fun v _ => [v]
    half_turn_homings := fun l => l.map fun p => (p.1, truncQ p.2 - 2047) }

/-- A transport stub on which every transaction succeeds. -/
def trOK : Transport :=
  { openOk := true
    broadcastPing := [(6, 777), (1, 777)]
    syncReadComm := fun _ => 0
    syncWriteComm := fun _ => 0
    writeComm := fun _ => (0, 0)
    getData := fun _ _ _ => 1000
    getTxRxResult := fun c => "[TxRxResult] comm=" ++ toString c
    getRxPacketError := fun e => "[RxPacketError] err=" ++ toString e }

/-- A transport stub that always reports communication failure. -/
def trFail : Transport :=
  { trOK with
    syncReadComm := fun _ => 1
    syncWriteComm := fun _ => 1
    writeComm := fun _ => (1, 0) }

/-- C3: the bus is a two-state machine.  `connect()` on an
already-connected bus fails with the already-connected error,
`disconnect()` on a disconnected bus fails with the not-connected error,
and `sync_read`, `sync_write` and `write` invoked while disconnected fail
with the not-connected error before any transport I/O (transmit counters
unchanged). -/
theorem C3_state_machine_discipline (busC busD : MotorsBus) (tr : Transport) (flag : Bool)
    (dn : String) (motors : MotorsArg) (values : SyncWriteValues) (m : NameOrID)
    (v : Value) (nz : Bool) (r : Nat) (s : TxState)
    (hC : busC.connected = true) (hD : busD.connected = false) :
    busC.connect tr flag = .error (.deviceAlreadyConnected (alreadyConnectedMsg busC)) ∧
    busD.disconnect = .error (.deviceNotConnected (notConnectedTryMsg busD)) ∧
    busD.sync_read tr dn motors nz r s =
      (.error (.deviceNotConnected (notConnectedRunMsg busD)), s) ∧
    busD.sync_write tr dn values nz r s =
      (.error (.deviceNotConnected (notConnectedRunMsg busD)), s) ∧
    busD.write tr dn m v nz r s =
      (.error (.deviceNotConnected (notConnectedRunMsg busD)), s) := by
  refine ⟨?_, ?_, ?_, ?_, ?_⟩
  · simp [MotorsBus.connect, hC]
  · simp [MotorsBus.disconnect, hD]
  · simp [MotorsBus.sync_read, hD]
  · simp [MotorsBus.sync_write, hD]
  · simp [MotorsBus.write, hD]

/-- The disconnected variant of the example bus. -/
def busD3 : MotorsBus := { busW with connected := false }

theorem C3_witness :
    busW.connected = true ∧ busD3.connected = false ∧
    (busW.connect trOK true = .error (.deviceAlreadyConnected (alreadyConnectedMsg busW)) ∧
      busD3.disconnect = .error (.deviceNotConnected (notConnectedTryMsg busD3)) ∧
      busD3.sync_read trOK "Present_Position" .all true 0 ⟨0, 0, 0⟩ =
        (.error (.deviceNotConnected (notConnectedRunMsg busD3)), ⟨0, 0, 0⟩) ∧
      busD3.sync_write trOK "Goal_Position" (.scalar (.vint 5)) true 0 ⟨0, 0, 0⟩ =
        (.error (.deviceNotConnected (notConnectedRunMsg busD3)), ⟨0, 0, 0⟩) ∧
      busD3.write trOK "Goal_Position" (.name "wrist") (.vint 5) true 0 ⟨0, 0, 0⟩ =
        (.error (.deviceNotConnected (notConnectedRunMsg busD3)), ⟨0, 0, 0⟩)) :=
  ⟨rfl, rfl, C3_state_machine_discipline busW busD3 trOK true "Present_Position" .all
    (.scalar (.vint 5)) (.name "wrist") (.vint 5) true 0 ⟨0, 0, 0⟩ rfl rfl⟩

/-- C10: `set_half_turn_homings` rejects every list argument with a
`TypeError` before performing any I/O (the transmit counters are returned
unchanged), whereas `reset_calibration`, `disable_torque`, `enable_torque`
and `record_ranges_of_motion` accept lists and proceed with exactly the
given list. -/
theorem C10_set_half_turn_homings_rejects_lists (bus : MotorsBus) (tr : Transport)
    (l : List NameOrID) (cd : Nat) (s : TxState) :
    bus.set_half_turn_homings tr (.list l) s = (.error (.typeError (pyReprNameOrIDList l)), s) ∧
    bus.reset_calibration tr (.list l) s = bus.reset_calibration_loop tr l s ∧
    bus.disable_torque (.list l) = .ok l ∧
    bus.enable_torque (.list l) = .ok l ∧
    bus.record_ranges_of_motion tr (.list l) cd s = bus.record_body tr l cd s :=
  ⟨rfl, rfl, rfl, rfl, rfl⟩

/-- C8: two distinct motor names carrying the same id make `_validate_motors`
fail with the duplicate-id `ValueError`. -/
theorem C8_duplicate_ids_rejected (bus : MotorsBus) (n1 n2 : String) (m1 m2 : Motor)
    (h1 : (n1, m1) ∈ bus.motors) (h2 : (n2, m2) ∈ bus.motors)
    (hne : n1 ≠ n2) (hid : m1.id = m2.id) :
    bus._validate_motors = .error (.valueError "Some motors have the same id!") := by
  have hnd : ¬ bus.ids.Nodup := by
    intro hnodup
    have hnodup' : (bus.motors.map (fun p : String × Motor => p.2.id)).Nodup := hnodup
    have hinj := List.inj_on_of_nodup_map hnodup'
    have := hinj h1 h2 hid
    exact hne (congrArg Prod.fst this)
  have hlen := dedup_length_ne_of_not_nodup _ hnd
  unfold MotorsBus._validate_motors
  rw [if_pos hlen]

/-- A bus whose two motors share id 6. -/
def busC8 : MotorsBus :=
  { busW with motors := [("a", ⟨6, "sts3215", .range_m100_100⟩), ("b", ⟨6, "sts3215", .range_0_100⟩)] }

theorem C8_witness :
    ("a", (⟨6, "sts3215", .range_m100_100⟩ : Motor)) ∈ busC8.motors ∧
    ("b", (⟨6, "sts3215", .range_0_100⟩ : Motor)) ∈ busC8.motors ∧
    busC8._validate_motors = .error (.valueError "Some motors have the same id!") :=
  ⟨by decide, by decide,
    C8_duplicate_ids_rejected busC8 "a" "b" ⟨6, "sts3215", .range_m100_100⟩
      ⟨6, "sts3215", .range_0_100⟩ (by decide) (by decide) (by decide) rfl⟩

/-- C9: whenever `write_calibration` returns successfully, the bus has
adopted exactly the calibration dict that was passed in — for every dict,
with no condition relating its key set to the configured motors — and the
motor set, connection state and port are untouched. -/
theorem C9_write_calibration_adopts_dict (bus bus' : MotorsBus) (tr : Transport)
    (d : List (String × MotorCalibration)) (s s' : TxState)
    (h : bus.write_calibration tr d s = (.ok bus', s')) :
    bus'.calibration = d ∧ bus'.motors = bus.motors ∧ bus'.connected = bus.connected ∧
    bus'.port = bus.port := by
  unfold MotorsBus.write_calibration at h
  cases hl : bus.write_calib_loop tr d s with
  | mk res s2 =>
    rw [hl] at h
    cases res with
    | error e => simp at h
    | ok u =>
      simp only [Prod.mk.injEq, Except.ok.injEq] at h
      obtain ⟨hb, _⟩ := h
      rw [← hb]
      exact ⟨rfl, rfl, rfl, rfl⟩

/-- A calibration dict whose key set differs from the bus's motors (it
covers only one of the two configured motors). -/
def calC9 : List (String × MotorCalibration) := [("wrist", ⟨6, 0, 100, 10, 4000⟩)]

/-- The bus after adopting `calC9`. -/
def busC9res : MotorsBus := { busW with calibration := calC9 }

theorem C9_witness :
    busW.write_calibration trOK calC9 ⟨0, 0, 0⟩ = (.ok busC9res, ⟨0, 0, 3⟩) ∧
    busC9res.calibration = calC9 ∧ busC9res.motors = busW.motors :=
  ⟨rfl,
    (C9_write_calibration_adopts_dict busW busC9res trOK calC9 ⟨0, 0, 0⟩ ⟨0, 0, 3⟩ rfl).1,
    (C9_write_calibration_adopts_dict busW busC9res trOK calC9 ⟨0, 0, 0⟩ ⟨0, 0, 3⟩ rfl).2.1⟩

/-- C7: if any entry of the input refers to a motor whose `norm_mode` is
`DEGREE` or `VELOCITY`, then `_normalize` and `_unnormalize` fail with the
(bare) not-implemented error — provided every entry resolves, so that no
other exception pre-empts it; they never silently approximate. -/
theorem C7_unsupported_modes_not_implemented (bus : MotorsBus) (dn dn' : String)
    (l : List (Nat × Int)) (l' : List (Nat × ℚ)) (i : Nat) (v : Int) (i' : Nat) (v' : ℚ)
    (hall : ∀ p ∈ l, bus.normEntryOk p.1 = true)
    (hmem : (i, v) ∈ l) (huns : bus.unsupportedMode i = true)
    (hall' : ∀ p ∈ l', bus.normEntryOk p.1 = true)
    (hmem' : (i', v') ∈ l') (huns' : bus.unsupportedMode i' = true) :
    bus._normalize dn l = .error (.notImplemented "") ∧
    bus._unnormalize dn' l' = .error (.notImplemented "") := by
  constructor
  · unfold MotorsBus._normalize
    apply mapM_error_of_mem
    · intro p hp
      cases hb : bus.unsupportedMode p.1 with
      | false => exact Or.inr ((normalize_entry_spec bus p (hall p hp)).2 hb)
      | true => exact Or.inl ((normalize_entry_spec bus p (hall p hp)).1 hb)
    · exact ⟨(i, v), hmem, (normalize_entry_spec bus (i, v) (hall _ hmem)).1 huns⟩
  · unfold MotorsBus._unnormalize
    apply mapM_error_of_mem
    · intro p hp
      cases hb : bus.unsupportedMode p.1 with
      | false => exact Or.inr ((unnormalize_entry_spec bus p (hall' p hp)).2 hb)
      | true => exact Or.inl ((unnormalize_entry_spec bus p (hall' p hp)).1 hb)
    · exact ⟨(i', v'), hmem', (unnormalize_entry_spec bus (i', v') (hall' _ hmem')).1 huns'⟩

/-- A bus whose motor id 3 uses the unsupported `DEGREE` mode (id 6 uses a
supported mode and comes first in the inputs below). -/
def busC7 : MotorsBus :=
  { busW with
    motors := [("wrist", ⟨6, "sts3215", .range_m100_100⟩), ("elbow", ⟨3, "sts3215", .degree⟩)]
    calibration := [("wrist", ⟨6, 0, 0, 0, 4095⟩), ("elbow", ⟨3, 0, 0, 0, 4095⟩)] }

theorem C7_witness :
    (∀ p ∈ ([(6, 1000), (3, 2000)] : List (Nat × Int)), busC7.normEntryOk p.1 = true) ∧
    busC7.unsupportedMode 3 = true ∧
    (busC7._normalize "Present_Position" [(6, 1000), (3, 2000)] = .error (.notImplemented "") ∧
      busC7._unnormalize "Goal_Position" [(6, 10), (3, 5)] = .error (.notImplemented "")) :=
  ⟨by decide, by decide,
    C7_unsupported_modes_not_implemented busC7 "Present_Position" "Goal_Position"
      [(6, 1000), (3, 2000)] [(6, 10), (3, 5)] 3 2000 3 5
      (by decide) (by decide) (by decide) (by decide) (by decide) (by decide)⟩

theorem truncQ_intCast (n : Int) : truncQ ((n : ℚ)) = n := by
  unfold truncQ
  by_cases h : (0 : ℚ) ≤ (n : ℚ)
  · rw [if_pos h, Int.floor_intCast]
  · rw [if_neg h, show -((n : ℚ)) = ((-n : Int) : ℚ) by push_cast; ring, Int.floor_intCast]
    ring

theorem normalize_single_m100 (bus : MotorsBus) (dn : String) (i : Nat) (v : Int)
    (name : String) (cal : MotorCalibration) (motor : Motor)
    (hn : bus.id_to_name i = .ok name)
    (hc : alistGet bus.calibration name = some cal)
    (hm : alistGet bus.motors name = some motor)
    (hne : cal.range_max ≠ cal.range_min)
    (hmode : motor.norm_mode = .range_m100_100) :
    bus._normalize dn [(i, v)] = .ok [(i,
      (((min cal.range_max (max cal.range_min v) : Int) : ℚ) - (cal.range_min : ℚ)) /
        ((cal.range_max : ℚ) - (cal.range_min : ℚ)) * 200 - 100)] := by
  unfold MotorsBus._normalize
  rw [List.mapM_cons, List.mapM_nil]
  simp [MotorsBus.normalize_entry, hn, hc, hm, hmode, exceptBind_ok, hne]

theorem normalize_single_0100 (bus : MotorsBus) (dn : String) (i : Nat) (v : Int)
    (name : String) (cal : MotorCalibration) (motor : Motor)
    (hn : bus.id_to_name i = .ok name)
    (hc : alistGet bus.calibration name = some cal)
    (hm : alistGet bus.motors name = some motor)
    (hne : cal.range_max ≠ cal.range_min)
    (hmode : motor.norm_mode = .range_0_100) :
    bus._normalize dn [(i, v)] = .ok [(i,
      (((min cal.range_max (max cal.range_min v) : Int) : ℚ) - (cal.range_min : ℚ)) /
        ((cal.range_max : ℚ) - (cal.range_min : ℚ)) * 100)] := by
  unfold MotorsBus._normalize
  rw [List.mapM_cons, List.mapM_nil]
  simp [MotorsBus.normalize_entry, hn, hc, hm, hmode, exceptBind_ok, hne]

theorem unnormalize_single_m100 (bus : MotorsBus) (dn : String) (i : Nat) (q : ℚ)
    (name : String) (cal : MotorCalibration) (motor : Motor)
    (hn : bus.id_to_name i = .ok name)
    (hc : alistGet bus.calibration name = some cal)
    (hm : alistGet bus.motors name = some motor)
    (hmode : motor.norm_mode = .range_m100_100) :
    bus._unnormalize dn [(i, q)] = .ok [(i,
      truncQ ((min 100 (max (-100) q) + 100) / 200 * ((cal.range_max : ℚ) - (cal.range_min : ℚ)) +
        (cal.range_min : ℚ)))] := by
  unfold MotorsBus._unnormalize
  rw [List.mapM_cons, List.mapM_nil]
  simp [MotorsBus.unnormalize_entry, hn, hc, hm, hmode, exceptBind_ok]

theorem unnormalize_single_0100 (bus : MotorsBus) (dn : String) (i : Nat) (q : ℚ)
    (name : String) (cal : MotorCalibration) (motor : Motor)
    (hn : bus.id_to_name i = .ok name)
    (hc : alistGet bus.calibration name = some cal)
    (hm : alistGet bus.motors name = some motor)
    (hmode : motor.norm_mode = .range_0_100) :
    bus._unnormalize dn [(i, q)] = .ok [(i,
      truncQ (min 100 (max 0 q) / 100 * ((cal.range_max : ℚ) - (cal.range_min : ℚ)) +
        (cal.range_min : ℚ)))] := by
  unfold MotorsBus._unnormalize
  rw [List.mapM_cons, List.mapM_nil]
  simp [MotorsBus.unnormalize_entry, hn, hc, hm, hmode, exceptBind_ok]

/-- The calibration record of motor `"wrist"` on the example bus. -/
def calWr : MotorCalibration := ⟨6, 0, 0, 0, 4095⟩

/-- The motor record of `"wrist"` on the example bus. -/
def motWr : Motor := ⟨6, "sts3215", .range_m100_100⟩

/-- C4: for a motor whose calibration has `range_min < range_max`,
`_normalize` clamps the raw value into `[range_min, range_max]` and then
maps linearly — to `[-100, 100]` via `((clamped-min)/(max-min))*200-100`
in mode `RANGE_M100_100` and to `[0, 100]` via
`((clamped-min)/(max-min))*100` in mode `RANGE_0_100`; on the concrete
`range_min=0, range_max=4095, RANGE_M100_100` calibration, raw `0` maps to
`-100`, raw `4095` to `100`, raw `2048` to a value within rounding of `0`,
and out-of-range raws `-5` and `5000` are clamped before mapping. -/
theorem C4_normalize_clamp_then_affine (bus : MotorsBus) (dn : String) (i : Nat) (v : Int)
    (name : String) (cal : MotorCalibration) (motor : Motor)
    (hn : bus.id_to_name i = .ok name)
    (hc : alistGet bus.calibration name = some cal)
    (hm : alistGet bus.motors name = some motor)
    (hlt : cal.range_min < cal.range_max) :
    (motor.norm_mode = .range_m100_100 →
      bus._normalize dn [(i, v)] = .ok [(i,
        (((min cal.range_max (max cal.range_min v) : Int) : ℚ) - (cal.range_min : ℚ)) /
          ((cal.range_max : ℚ) - (cal.range_min : ℚ)) * 200 - 100)]) ∧
    (motor.norm_mode = .range_0_100 →
      bus._normalize dn [(i, v)] = .ok [(i,
        (((min cal.range_max (max cal.range_min v) : Int) : ℚ) - (cal.range_min : ℚ)) /
          ((cal.range_max : ℚ) - (cal.range_min : ℚ)) * 100)]) ∧
    busW._normalize "Present_Position" [(6, 0)] = .ok [(6, -100)] ∧
    busW._normalize "Present_Position" [(6, 4095)] = .ok [(6, 100)] ∧
    (∃ q : ℚ, busW._normalize "Present_Position" [(6, 2048)] = .ok [(6, q)] ∧ |q| < 1) ∧
    busW._normalize "Present_Position" [(6, -5)] = .ok [(6, -100)] ∧
    busW._normalize "Present_Position" [(6, 5000)] = .ok [(6, 100)] := by
  refine ⟨fun hmode => normalize_single_m100 bus dn i v name cal motor hn hc hm hlt.ne' hmode,
    fun hmode => normalize_single_0100 bus dn i v name cal motor hn hc hm hlt.ne' hmode,
    ?_, ?_, ⟨100 / 4095, ?_, ?_⟩, ?_, ?_⟩
  · rw [normalize_single_m100 busW "Present_Position" 6 0 "wrist" calWr motWr rfl rfl rfl
      (by decide) rfl]
    norm_num [calWr]
  · rw [normalize_single_m100 busW "Present_Position" 6 4095 "wrist" calWr motWr rfl rfl rfl
      (by decide) rfl]
    norm_num [calWr]
  · rw [normalize_single_m100 busW "Present_Position" 6 2048 "wrist" calWr motWr rfl rfl rfl
      (by decide) rfl]
    norm_num [calWr]
  · rw [abs_lt]; constructor <;> norm_num
  · rw [normalize_single_m100 busW "Present_Position" 6 (-5) "wrist" calWr motWr rfl rfl rfl
      (by decide) rfl]
    norm_num [calWr]
  · rw [normalize_single_m100 busW "Present_Position" 6 5000 "wrist" calWr motWr rfl rfl rfl
      (by decide) rfl]
    norm_num [calWr]

theorem C4_witness :
    busW.id_to_name 6 = .ok "wrist" ∧
    alistGet busW.calibration "wrist" = some calWr ∧
    alistGet busW.motors "wrist" = some motWr ∧
    calWr.range_min < calWr.range_max ∧
    ((motWr.norm_mode = .range_m100_100 →
      busW._normalize "Present_Position" [(6, 1000)] = .ok [(6,
        (((min calWr.range_max (max calWr.range_min 1000) : Int) : ℚ) - (calWr.range_min : ℚ)) /
          ((calWr.range_max : ℚ) - (calWr.range_min : ℚ)) * 200 - 100)]) ∧
    (motWr.norm_mode = .range_0_100 →
      busW._normalize "Present_Position" [(6, 1000)] = .ok [(6,
        (((min calWr.range_max (max calWr.range_min 1000) : Int) : ℚ) - (calWr.range_min : ℚ)) /
          ((calWr.range_max : ℚ) - (calWr.range_min : ℚ)) * 100)]) ∧
    busW._normalize "Present_Position" [(6, 0)] = .ok [(6, -100)] ∧
    busW._normalize "Present_Position" [(6, 4095)] = .ok [(6, 100)] ∧
    (∃ q : ℚ, busW._normalize "Present_Position" [(6, 2048)] = .ok [(6, q)] ∧ |q| < 1) ∧
    busW._normalize "Present_Position" [(6, -5)] = .ok [(6, -100)] ∧
    busW._normalize "Present_Position" [(6, 5000)] = .ok [(6, 100)]) :=
  ⟨rfl, rfl, rfl, by decide,
    C4_normalize_clamp_then_affine busW "Present_Position" 6 1000 "wrist" calWr motWr
      rfl rfl rfl (by decide)⟩

theorem exceptBindFn_ok {ε α β : Type} (a : α) (f : α → Except ε β) :
    Except.bind (Except.ok a) f = f a := rfl

/-- C5: `_unnormalize` inverts `_normalize` — for every raw `x` inside the
calibrated range (in either supported mode), normalizing and then
unnormalizing returns exactly `x`; the normalized intermediate value lands
inside the mode's valid interval so its clamp is the identity, and the
final `int()` truncation is exact on the recovered integer. -/
theorem C5_unnormalize_inverts_normalize (bus : MotorsBus) (dn : String) (i : Nat) (x : Int)
    (name : String) (cal : MotorCalibration) (motor : Motor)
    (hn : bus.id_to_name i = .ok name)
    (hc : alistGet bus.calibration name = some cal)
    (hm : alistGet bus.motors name = some motor)
    (hlt : cal.range_min < cal.range_max)
    (hmode : motor.norm_mode = .range_m100_100 ∨ motor.norm_mode = .range_0_100)
    (hlo : cal.range_min ≤ x) (hhi : x ≤ cal.range_max) :
    Except.bind (bus._normalize dn [(i, x)]) (bus._unnormalize dn) = .ok [(i, x)] := by
  have hba : (0 : ℚ) < (cal.range_max : ℚ) - (cal.range_min : ℚ) := by
    have := sub_pos.mpr hlt
    exact_mod_cast this
  have hbane : ((cal.range_max : ℚ) - (cal.range_min : ℚ)) ≠ 0 := ne_of_gt hba
  have hclamp : min cal.range_max (max cal.range_min x) = x := by
    rw [max_eq_right hlo, min_eq_right hhi]
  have hfrac0 : 0 ≤ ((x : ℚ) - (cal.range_min : ℚ)) /
      ((cal.range_max : ℚ) - (cal.range_min : ℚ)) := by
    apply div_nonneg _ hba.le
    have := sub_nonneg.mpr hlo
    exact_mod_cast this
  have hfrac1 : ((x : ℚ) - (cal.range_min : ℚ)) /
      ((cal.range_max : ℚ) - (cal.range_min : ℚ)) ≤ 1 := by
    rw [div_le_one hba]
    have := sub_le_sub_right hhi cal.range_min
    exact_mod_cast this
  rcases hmode with hmode | hmode
  · rw [normalize_single_m100 bus dn i x name cal motor hn hc hm hlt.ne' hmode, hclamp,
      exceptBindFn_ok, unnormalize_single_m100 bus dn i _ name cal motor hn hc hm hmode]
    have hn0 : (-100 : ℚ) ≤ ((x : ℚ) - (cal.range_min : ℚ)) /
        ((cal.range_max : ℚ) - (cal.range_min : ℚ)) * 200 - 100 := by
      have := mul_nonneg hfrac0 (by norm_num : (0 : ℚ) ≤ 200)
      linarith
    have hn1 : ((x : ℚ) - (cal.range_min : ℚ)) /
        ((cal.range_max : ℚ) - (cal.range_min : ℚ)) * 200 - 100 ≤ 100 := by
      have := mul_le_mul_of_nonneg_right hfrac1 (by norm_num : (0 : ℚ) ≤ 200)
      linarith
    rw [max_eq_right hn0, min_eq_right hn1]
    have key : (((x : ℚ) - (cal.range_min : ℚ)) /
        ((cal.range_max : ℚ) - (cal.range_min : ℚ)) * 200 - 100 + 100) / 200 *
        ((cal.range_max : ℚ) - (cal.range_min : ℚ)) + (cal.range_min : ℚ) = ((x : Int) : ℚ) := by
      field_simp
      ring
    rw [key, truncQ_intCast]
  · rw [normalize_single_0100 bus dn i x name cal motor hn hc hm hlt.ne' hmode, hclamp,
      exceptBindFn_ok, unnormalize_single_0100 bus dn i _ name cal motor hn hc hm hmode]
    have hn0 : (0 : ℚ) ≤ ((x : ℚ) - (cal.range_min : ℚ)) /
        ((cal.range_max : ℚ) - (cal.range_min : ℚ)) * 100 := by
      exact mul_nonneg hfrac0 (by norm_num)
    have hn1 : ((x : ℚ) - (cal.range_min : ℚ)) /
        ((cal.range_max : ℚ) - (cal.range_min : ℚ)) * 100 ≤ 100 := by
      have := mul_le_mul_of_nonneg_right hfrac1 (by norm_num : (0 : ℚ) ≤ 100)
      linarith
    rw [max_eq_right hn0, min_eq_right hn1]
    have key : ((x : ℚ) - (cal.range_min : ℚ)) /
        ((cal.range_max : ℚ) - (cal.range_min : ℚ)) * 100 / 100 *
        ((cal.range_max : ℚ) - (cal.range_min : ℚ)) + (cal.range_min : ℚ) = ((x : Int) : ℚ) := by
      field_simp
      ring
    rw [key, truncQ_intCast]

theorem C5_witness :
    busW.id_to_name 6 = .ok "wrist" ∧
    calWr.range_min ≤ 1000 ∧ (1000 : Int) ≤ calWr.range_max ∧
    Except.bind (busW._normalize "Goal_Position" [(6, 1000)])
      (busW._unnormalize "Goal_Position") = .ok [(6, 1000)] :=
  ⟨rfl, by decide, by decide,
    C5_unnormalize_inverts_normalize busW "Goal_Position" 6 1000 "wrist" calWr motWr
      rfl rfl rfl (by decide) (Or.inl rfl) (by decide) (by decide)⟩

/-- C6: the `values` dispatch of `sync_write`.  A float scalar — a legal
`Value` by the annotated type — is rejected with a `TypeError` before any
transmission, because the source tests `isinstance(values, int)` only; an
int scalar is expanded to every configured motor id, and a per-motor dict
is applied entry-wise to the named/identified motors (shown here on the
concrete two-motor bus, including a full successful int-scalar group
write). -/
theorem C6_float_scalar_type_error :
    busW.sync_write trOK "Goal_Position" (.scalar (.vfloat (101 / 2))) true 0 ⟨0, 0, 0⟩ =
      (.error (.typeError "'values' is expected to be a single value or a dict."), ⟨0, 0, 0⟩) ∧
    busW.sync_write_expand (.scalar (.vint 50)) = .ok [(6, .vint 50), (1, .vint 50)] ∧
    busW.sync_write_expand (.dictV [(.name "gripper", .vint 7)]) = .ok [(1, .vint 7)] ∧
    busW.sync_write trOK "Homing_Offset" (.scalar (.vint 50)) true 0 ⟨0, 0, 0⟩ =
      (.ok (), ⟨0, 1, 0⟩) :=
  ⟨rfl, rfl, rfl, rfl⟩

theorem assert_same_address_fails (t : ModelCtrlTable) (models : List String) (dn : String)
    (pairs : List (Nat × Nat))
    (hpairs : models.mapM (fun m => get_address t m dn) = .ok pairs)
    (hmulti : 2 ≤ pairs.dedup.length) :
    ∃ msg, assert_same_address t models dn = .error (.notImplemented msg) := by
  obtain ⟨a, b, ha, hb, hab⟩ := two_distinct_of_dedup_length hmulti
  unfold assert_same_address
  rw [hpairs, exceptBind_ok]
  by_cases h1 : ((pairs.map Prod.fst).dedup.length = 1)
  · have hz := List.length_eq_one.mp h1
    obtain ⟨z, hz⟩ := hz
    have hall : ∀ y ∈ pairs.map Prod.fst, y = z := by
      intro y hy
      have hyd : y ∈ (pairs.map Prod.fst).dedup := List.mem_dedup.mpr hy
      rw [hz] at hyd
      simpa using hyd
    have ha1 : a.1 = z := hall a.1 (List.mem_map_of_mem Prod.fst ha)
    have hb1 : b.1 = z := hall b.1 (List.mem_map_of_mem Prod.fst hb)
    have hsnd : a.2 ≠ b.2 := by
      intro h2
      exact hab (Prod.ext_iff.mpr ⟨ha1.trans hb1.symm, h2⟩)
    have hbytes : (pairs.map Prod.snd).dedup.length ≠ 1 :=
      dedup_length_ne_one_of_two_mem (List.mem_map_of_mem Prod.snd ha)
        (List.mem_map_of_mem Prod.snd hb) hsnd
    refine ⟨"At least two motor models use a different bytes representation for data_name='"
      ++ dn ++ "'", ?_⟩
    rw [if_neg (by simpa using h1), if_pos hbytes]
  · refine ⟨"At least two motor models use a different address for data_name='" ++ dn ++ "'", ?_⟩
    rw [if_pos h1]

/-- C2: with motors spanning models whose control tables differ (the
per-bus `_has_different_ctrl_tables` value, a function of the bus alone),
if the participating models resolve the accessed parameter to more than
one distinct (address, width) pair, then `_sync_read` and `_sync_write`
fail with the cross-model incompatibility error raised by
`assert_same_address`, and the transmit counters are returned unchanged —
no bytes are sent. -/
theorem C2_cross_model_guard (bus : MotorsBus) (tr : Transport) (dn : String)
    (motor_ids : List Nat) (models : List String) (pairs : List (Nat × Nat))
    (iv : List (Nat × Value)) (r r' : Nat) (s s' : TxState)
    (hdiff : bus.has_different_ctrl_tables = .ok true)
    (hmodels : motor_ids.mapM bus.id_to_model = .ok models)
    (hpairs : models.mapM (fun m => get_address bus.model_ctrl_table m dn) = .ok pairs)
    (hmulti : 2 ≤ pairs.dedup.length)
    (hiv : iv.map Prod.fst = motor_ids) :
    ∃ msg, assert_same_address bus.model_ctrl_table models dn = .error (.notImplemented msg) ∧
      bus._sync_read tr dn motor_ids none r s = (.error (.notImplemented msg), s) ∧
      bus._sync_write tr dn iv r' s' = (.error (.notImplemented msg), s') := by
  obtain ⟨msg, hassert⟩ := assert_same_address_fails bus.model_ctrl_table models dn pairs
    hpairs hmulti
  have hguard : bus.group_guard dn motor_ids none = .error (.notImplemented msg) := by
    unfold MotorsBus.group_guard
    rw [hdiff, exceptBind_ok, if_pos rfl, hmodels, exceptBind_ok, hassert, exceptBind_error]
  refine ⟨msg, hassert, ?_, ?_⟩
  · unfold MotorsBus._sync_read
    rw [hguard]
  · unfold MotorsBus._sync_write
    rw [hiv, hguard]

theorem sync_read_inner_all_fail (bus : MotorsBus) (tr : Transport) (dn : String)
    (motor_ids : List Nat) (r : Nat) (s : TxState) (addr nb : Nat)
    (hguard : bus.group_guard dn motor_ids none = .ok (addr, nb))
    (hfr : ∀ k, ¬ tr.syncReadComm k = bus.comm_success) :
    bus._sync_read tr dn motor_ids none r s =
      (.ok (tr.syncReadComm (s.nSyncRead + r),
        motor_ids.map fun i => (i, bus.decode_value (tr.getData i addr nb) dn nb)),
       { s with nSyncRead := s.nSyncRead + r + 1 }) := by
  unfold MotorsBus._sync_read
  rw [hguard]
  have hloop := commLoop_all_fail (fun c => decide (c = bus.comm_success)) tr.syncReadComm r
    s.nSyncRead (fun k _ => decide_eq_false (hfr (s.nSyncRead + k)))
  dsimp only
  rw [hloop]

theorem sync_read_inner_first_success (bus : MotorsBus) (tr : Transport) (dn : String)
    (motor_ids : List Nat) (r j : Nat) (s : TxState) (addr nb : Nat)
    (hguard : bus.group_guard dn motor_ids none = .ok (addr, nb))
    (hjr : j ≤ r)
    (hsucc : tr.syncReadComm (s.nSyncRead + j) = bus.comm_success)
    (hbefore : ∀ k, k < j → ¬ tr.syncReadComm (s.nSyncRead + k) = bus.comm_success) :
    bus._sync_read tr dn motor_ids none r s =
      (.ok (tr.syncReadComm (s.nSyncRead + j),
        motor_ids.map fun i => (i, bus.decode_value (tr.getData i addr nb) dn nb)),
       { s with nSyncRead := s.nSyncRead + j + 1 }) := by
  unfold MotorsBus._sync_read
  rw [hguard]
  have hloop := commLoop_first_success (fun c => decide (c = bus.comm_success)) tr.syncReadComm j r
    s.nSyncRead hjr (decide_eq_true hsucc)
    (fun k hk => decide_eq_false (hbefore k hk))
  dsimp only
  rw [hloop]

theorem sync_write_inner_all_fail (bus : MotorsBus) (tr : Transport) (dn : String)
    (iv : List (Nat × Value)) (r : Nat) (s : TxState) (addr nb : Nat)
    (hguard : bus.group_guard dn (iv.map Prod.fst) none = .ok (addr, nb))
    (hfw : ∀ k, ¬ tr.syncWriteComm k = bus.comm_success) :
    bus._sync_write tr dn iv r s =
      (.ok (tr.syncWriteComm (s.nSyncWrite + r)),
       { s with nSyncWrite := s.nSyncWrite + r + 1 }) := by
  unfold MotorsBus._sync_write
  rw [hguard]
  have hloop := commLoop_all_fail (fun c => decide (c = bus.comm_success)) tr.syncWriteComm r
    s.nSyncWrite (fun k _ => decide_eq_false (hfw (s.nSyncWrite + k)))
  dsimp only
  rw [hloop]

theorem sync_write_inner_first_success (bus : MotorsBus) (tr : Transport) (dn : String)
    (iv : List (Nat × Value)) (r j : Nat) (s : TxState) (addr nb : Nat)
    (hguard : bus.group_guard dn (iv.map Prod.fst) none = .ok (addr, nb))
    (hjr : j ≤ r)
    (hsucc : tr.syncWriteComm (s.nSyncWrite + j) = bus.comm_success)
    (hbefore : ∀ k, k < j → ¬ tr.syncWriteComm (s.nSyncWrite + k) = bus.comm_success) :
    bus._sync_write tr dn iv r s =
      (.ok (tr.syncWriteComm (s.nSyncWrite + j)),
       { s with nSyncWrite := s.nSyncWrite + j + 1 }) := by
  unfold MotorsBus._sync_write
  rw [hguard]
  have hloop := commLoop_first_success (fun c => decide (c = bus.comm_success)) tr.syncWriteComm j r
    s.nSyncWrite hjr (decide_eq_true hsucc)
    (fun k hk => decide_eq_false (hbefore k hk))
  dsimp only
  rw [hloop]

theorem write_inner_all_fail (bus : MotorsBus) (tr : Transport) (dn : String)
    (mid : Nat) (v : Value) (r : Nat) (s : TxState) (addr nb : Nat)
    (hguard : bus.write_guard dn mid = .ok (addr, nb))
    (hfs : ∀ k, ¬ (tr.writeComm k).1 = bus.comm_success) :
    bus._write tr dn mid v r s =
      (.ok (tr.writeComm (s.nWrite + r)), { s with nWrite := s.nWrite + r + 1 }) := by
  unfold MotorsBus._write
  rw [hguard]
  have hloop := commLoop_all_fail (fun p : Int × Int => decide (p.1 = bus.comm_success))
    tr.writeComm r s.nWrite (fun k _ => decide_eq_false (hfs (s.nWrite + k)))
  dsimp only
  rw [hloop]

theorem write_inner_first_success (bus : MotorsBus) (tr : Transport) (dn : String)
    (mid : Nat) (v : Value) (r j : Nat) (s : TxState) (addr nb : Nat)
    (hguard : bus.write_guard dn mid = .ok (addr, nb))
    (hjr : j ≤ r)
    (hsucc : (tr.writeComm (s.nWrite + j)).1 = bus.comm_success)
    (hbefore : ∀ k, k < j → ¬ (tr.writeComm (s.nWrite + k)).1 = bus.comm_success) :
    bus._write tr dn mid v r s =
      (.ok (tr.writeComm (s.nWrite + j)), { s with nWrite := s.nWrite + j + 1 }) := by
  unfold MotorsBus._write
  rw [hguard]
  have hloop := commLoop_first_success (fun p : Int × Int => decide (p.1 = bus.comm_success))
    tr.writeComm j r s.nWrite hjr (decide_eq_true hsucc)
    (fun k hk => decide_eq_false (hbefore k hk))
  dsimp only
  rw [hloop]

theorem sync_read_all_fail (bus : MotorsBus) (tr : Transport) (dn : String) (nz : Bool)
    (r : Nat) (s : TxState) (addr nb : Nat)
    (hconn : bus.connected = true)
    (hnodup : bus.ids.Nodup)
    (hguard : bus.group_guard dn bus.ids none = .ok (addr, nb))
    (hfr : ∀ k, ¬ tr.syncReadComm k = bus.comm_success) :
    bus.sync_read tr dn .all nz r s =
      (.error (.connectionError (syncReadFailMsg dn bus.ids (r + 1)
        (tr.getTxRxResult (tr.syncReadComm (s.nSyncRead + r))))),
       { s with nSyncRead := s.nSyncRead + r + 1 }) := by
  have hkn : ((bus.motors.map fun p => (p.2.id, NameOrID.name p.1)).map Prod.fst).Nodup := by
    rw [List.map_map]; exact hnodup
  have hkeys : bus.sync_read_keys .all =
      .ok (bus.motors.map fun p => (p.2.id, NameOrID.name p.1)) := by
    unfold MotorsBus.sync_read_keys
    rw [pyDict_eq_self _ hkn]
  have hmi : (bus.motors.map fun p => (p.2.id, NameOrID.name p.1)).map Prod.fst = bus.ids := by
    rw [List.map_map]; rfl
  unfold MotorsBus.sync_read
  rw [if_neg (show ¬ ((!bus.connected) = true) by simp [hconn])]
  rw [hkeys]
  dsimp only
  rw [hmi, sync_read_inner_all_fail bus tr dn bus.ids r s addr nb hguard hfr]
  dsimp only
  rw [if_pos (hfr (s.nSyncRead + r))]

theorem sync_read_all_success (bus : MotorsBus) (tr : Transport) (dn : String) (nz : Bool)
    (r j : Nat) (s : TxState) (addr nb : Nat)
    (hconn : bus.connected = true)
    (hnodup : bus.ids.Nodup)
    (hguard : bus.group_guard dn bus.ids none = .ok (addr, nb))
    (hnorm : dn ∉ bus.normalization_required)
    (hjr : j ≤ r)
    (hsucc : tr.syncReadComm (s.nSyncRead + j) = bus.comm_success)
    (hbefore : ∀ k, k < j → ¬ tr.syncReadComm (s.nSyncRead + k) = bus.comm_success) :
    ∃ out, bus.sync_read tr dn .all nz r s =
      (.ok out, { s with nSyncRead := s.nSyncRead + j + 1 }) := by
  have hkn : ((bus.motors.map fun p => (p.2.id, NameOrID.name p.1)).map Prod.fst).Nodup := by
    rw [List.map_map]; exact hnodup
  have hkeys : bus.sync_read_keys .all =
      .ok (bus.motors.map fun p => (p.2.id, NameOrID.name p.1)) := by
    unfold MotorsBus.sync_read_keys
    rw [pyDict_eq_self _ hkn]
  have hmi : (bus.motors.map fun p => (p.2.id, NameOrID.name p.1)).map Prod.fst = bus.ids := by
    rw [List.map_map]; rfl
  have hforall : ∀ p ∈ ((bus.ids.map fun i =>
        (i, bus.decode_value (tr.getData i addr nb) dn nb)).map fun p => (p.1, (p.2 : ℚ))),
      ∃ k, (match alistGet (bus.motors.map fun q => (q.2.id, NameOrID.name q.1)) p.1 with
        | some k => Except.ok (k, p.2)
        | none => Except.error (PyError.keyError (toString p.1))) = Except.ok k := by
    intro p hp
    obtain ⟨q, hq, rfl⟩ := List.mem_map.mp hp
    obtain ⟨i, hi, rfl⟩ := List.mem_map.mp hq
    have hmem : i ∈ (bus.motors.map fun q => (q.2.id, NameOrID.name q.1)).map Prod.fst := by
      rw [hmi]; exact hi
    obtain ⟨b, hb⟩ := alistGet_isSome_of_mem _ _ hmem
    exact ⟨(b, _), by dsimp only; rw [hb]⟩
  obtain ⟨out, hout⟩ := mapM_ok_of_forall _ _ hforall
  refine ⟨out, ?_⟩
  unfold MotorsBus.sync_read
  rw [if_neg (show ¬ ((!bus.connected) = true) by simp [hconn])]
  rw [hkeys]
  dsimp only
  rw [hmi, sync_read_inner_first_success bus tr dn bus.ids r j s addr nb hguard hjr hsucc hbefore]
  dsimp only
  rw [if_neg (show ¬ (tr.syncReadComm (s.nSyncRead + j) ≠ bus.comm_success) from
    fun h => h hsucc)]
  rw [if_neg (show ¬ (nz = true ∧ dn ∈ bus.normalization_required) from fun h => hnorm h.2)]
  dsimp only
  rw [hout]

theorem sync_write_scalar_fail (bus : MotorsBus) (tr : Transport) (dn : String) (v : Int)
    (nz : Bool) (r : Nat) (s : TxState) (addr nb : Nat)
    (hconn : bus.connected = true)
    (hnodup : bus.ids.Nodup)
    (hguard : bus.group_guard dn bus.ids none = .ok (addr, nb))
    (hnorm : dn ∉ bus.normalization_required)
    (hfw : ∀ k, ¬ tr.syncWriteComm k = bus.comm_success) :
    bus.sync_write tr dn (.scalar (.vint v)) nz r s =
      (.error (.connectionError (syncWriteFailMsg dn
        (bus.ids.map fun i => (i, Value.vint v)) (r + 1)
        (tr.getTxRxResult (tr.syncWriteComm (s.nSyncWrite + r))))),
       { s with nSyncWrite := s.nSyncWrite + r + 1 }) := by
  have hexn : ((bus.ids.map fun i => (i, Value.vint v)).map Prod.fst).Nodup := by
    rw [List.map_map, show (Prod.fst ∘ fun i => (i, Value.vint v)) = id from rfl, List.map_id]
    exact hnodup
  have hexp : bus.sync_write_expand (.scalar (.vint v)) =
      .ok (bus.ids.map fun i => (i, Value.vint v)) := by
    unfold MotorsBus.sync_write_expand
    dsimp only
    rw [pyDict_eq_self _ hexn]
  have hfst : (bus.ids.map fun i => (i, Value.vint v)).map Prod.fst = bus.ids := by
    rw [List.map_map, show (Prod.fst ∘ fun i => (i, Value.vint v)) = id from rfl, List.map_id]
  unfold MotorsBus.sync_write
  rw [if_neg (show ¬ ((!bus.connected) = true) by simp [hconn])]
  rw [hexp]
  dsimp only
  rw [if_neg (show ¬ (nz = true ∧ dn ∈ bus.normalization_required) from fun h => hnorm h.2)]
  dsimp only
  rw [sync_write_inner_all_fail bus tr dn _ r s addr nb (by rw [hfst]; exact hguard) hfw]
  dsimp only
  rw [if_pos (hfw (s.nSyncWrite + r))]

theorem sync_write_scalar_success (bus : MotorsBus) (tr : Transport) (dn : String) (v : Int)
    (nz : Bool) (r j : Nat) (s : TxState) (addr nb : Nat)
    (hconn : bus.connected = true)
    (hnodup : bus.ids.Nodup)
    (hguard : bus.group_guard dn bus.ids none = .ok (addr, nb))
    (hnorm : dn ∉ bus.normalization_required)
    (hjr : j ≤ r)
    (hsucc : tr.syncWriteComm (s.nSyncWrite + j) = bus.comm_success)
    (hbefore : ∀ k, k < j → ¬ tr.syncWriteComm (s.nSyncWrite + k) = bus.comm_success) :
    ∃ out, bus.sync_write tr dn (.scalar (.vint v)) nz r s =
      (out, { s with nSyncWrite := s.nSyncWrite + j + 1 }) := by
  have hexn : ((bus.ids.map fun i => (i, Value.vint v)).map Prod.fst).Nodup := by
    rw [List.map_map, show (Prod.fst ∘ fun i => (i, Value.vint v)) = id from rfl, List.map_id]
    exact hnodup
  have hexp : bus.sync_write_expand (.scalar (.vint v)) =
      .ok (bus.ids.map fun i => (i, Value.vint v)) := by
    unfold MotorsBus.sync_write_expand
    dsimp only
    rw [pyDict_eq_self _ hexn]
  have hfst : (bus.ids.map fun i => (i, Value.vint v)).map Prod.fst = bus.ids := by
    rw [List.map_map, show (Prod.fst ∘ fun i => (i, Value.vint v)) = id from rfl, List.map_id]
  refine ⟨.ok (), ?_⟩
  unfold MotorsBus.sync_write
  rw [if_neg (show ¬ ((!bus.connected) = true) by simp [hconn])]
  rw [hexp]
  dsimp only
  rw [if_neg (show ¬ (nz = true ∧ dn ∈ bus.normalization_required) from fun h => hnorm h.2)]
  dsimp only
  rw [sync_write_inner_first_success bus tr dn _ r j s addr nb (by rw [hfst]; exact hguard)
    hjr hsucc hbefore]
  dsimp only
  rw [if_neg (show ¬ (tr.syncWriteComm (s.nSyncWrite + j) ≠ bus.comm_success) from
    fun h => h hsucc)]

theorem write_single_fail (bus : MotorsBus) (tr : Transport) (dn : String) (m : NameOrID)
    (mid : Nat) (v : Int) (nz : Bool) (r : Nat) (s : TxState) (addr nb : Nat)
    (hconn : bus.connected = true)
    (hgid : bus.get_motor_id m = .ok mid)
    (hwg : bus.write_guard dn mid = .ok (addr, nb))
    (hnorm : dn ∉ bus.normalization_required)
    (hfs : ∀ k, ¬ (tr.writeComm k).1 = bus.comm_success) :
    bus.write tr dn m (.vint v) nz r s =
      (.error (.connectionError (writeFailMsg dn mid (Value.pyRepr (.vint v)) (r + 1)
        (tr.getTxRxResult ((tr.writeComm (s.nWrite + r)).1)))),
       { s with nWrite := s.nWrite + r + 1 }) := by
  unfold MotorsBus.write
  rw [if_neg (show ¬ ((!bus.connected) = true) by simp [hconn])]
  rw [hgid]
  dsimp only
  rw [if_neg (show ¬ (nz = true ∧ dn ∈ bus.normalization_required) from fun h => hnorm h.2)]
  dsimp only
  rw [write_inner_all_fail bus tr dn mid (.vint v) r s addr nb hwg hfs]
  dsimp only
  rw [if_pos (hfs (s.nWrite + r))]

theorem write_single_success (bus : MotorsBus) (tr : Transport) (dn : String) (m : NameOrID)
    (mid : Nat) (v : Int) (nz : Bool) (r j : Nat) (s : TxState) (addr nb : Nat)
    (hconn : bus.connected = true)
    (hgid : bus.get_motor_id m = .ok mid)
    (hwg : bus.write_guard dn mid = .ok (addr, nb))
    (hnorm : dn ∉ bus.normalization_required)
    (hjr : j ≤ r)
    (hsucc : (tr.writeComm (s.nWrite + j)).1 = bus.comm_success)
    (hbefore : ∀ k, k < j → ¬ (tr.writeComm (s.nWrite + k)).1 = bus.comm_success) :
    ∃ out, bus.write tr dn m (.vint v) nz r s =
      (out, { s with nWrite := s.nWrite + j + 1 }) := by
  by_cases herr : (tr.writeComm (s.nWrite + j)).2 ≠ bus.no_error
  · refine ⟨.error (.runtimeError (writeFailMsg dn mid (Value.pyRepr (.vint v)) (r + 1)
      (tr.getRxPacketError ((tr.writeComm (s.nWrite + j)).2)))), ?_⟩
    unfold MotorsBus.write
    rw [if_neg (show ¬ ((!bus.connected) = true) by simp [hconn])]
    rw [hgid]
    dsimp only
    rw [if_neg (show ¬ (nz = true ∧ dn ∈ bus.normalization_required) from fun h => hnorm h.2)]
    dsimp only
    rw [write_inner_first_success bus tr dn mid (.vint v) r j s addr nb hwg hjr hsucc hbefore]
    dsimp only
    rw [if_neg (show ¬ ((tr.writeComm (s.nWrite + j)).1 ≠ bus.comm_success) from
      fun h => h hsucc)]
    rw [if_pos herr]
  · refine ⟨.ok (), ?_⟩
    unfold MotorsBus.write
    rw [if_neg (show ¬ ((!bus.connected) = true) by simp [hconn])]
    rw [hgid]
    dsimp only
    rw [if_neg (show ¬ (nz = true ∧ dn ∈ bus.normalization_required) from fun h => hnorm h.2)]
    dsimp only
    rw [write_inner_first_success bus tr dn mid (.vint v) r j s addr nb hwg hjr hsucc hbefore]
    dsimp only
    rw [if_neg (show ¬ ((tr.writeComm (s.nWrite + j)).1 ≠ bus.comm_success) from
      fun h => h hsucc)]
    rw [if_neg herr]

/-- C1: retry exhaustion and early stop.  With a transport that reports
communication failure on every attempt, `sync_read`, `sync_write` and
`write` each perform exactly `1 + r` transport attempts (the per-channel
transmit counter advances by `r + 1`) and then fail with a connectivity
error whose message carries the attempt count `1 + r` and the transport's
diagnostic text; with a transport whose attempt `j ≤ r` is the first
success, each operation stops after exactly `j + 1` attempts. -/
theorem C1_retry_exhaustion_and_stop (bus : MotorsBus) (tr tr2 : Transport) (dn : String)
    (m : NameOrID) (mid : Nat) (v : Int) (nz : Bool) (r j : Nat) (s : TxState)
    (addr nb addr2 nb2 : Nat)
    (hconn : bus.connected = true)
    (hnodup : bus.ids.Nodup)
    (hguard : bus.group_guard dn bus.ids none = .ok (addr, nb))
    (hgid : bus.get_motor_id m = .ok mid)
    (hwg : bus.write_guard dn mid = .ok (addr2, nb2))
    (hnorm : dn ∉ bus.normalization_required)
    (hfr : ∀ k, ¬ tr.syncReadComm k = bus.comm_success)
    (hfw : ∀ k, ¬ tr.syncWriteComm k = bus.comm_success)
    (hfs : ∀ k, ¬ (tr.writeComm k).1 = bus.comm_success)
    (hjr : j ≤ r)
    (hsr : tr2.syncReadComm (s.nSyncRead + j) = bus.comm_success)
    (hbr : ∀ k, k < j → ¬ tr2.syncReadComm (s.nSyncRead + k) = bus.comm_success)
    (hsw : tr2.syncWriteComm (s.nSyncWrite + j) = bus.comm_success)
    (hbw : ∀ k, k < j → ¬ tr2.syncWriteComm (s.nSyncWrite + k) = bus.comm_success)
    (hss : (tr2.writeComm (s.nWrite + j)).1 = bus.comm_success)
    (hbs : ∀ k, k < j → ¬ (tr2.writeComm (s.nWrite + k)).1 = bus.comm_success) :
    bus.sync_read tr dn .all nz r s =
      (.error (.connectionError (syncReadFailMsg dn bus.ids (r + 1)
        (tr.getTxRxResult (tr.syncReadComm (s.nSyncRead + r))))),
       { s with nSyncRead := s.nSyncRead + r + 1 }) ∧
    bus.sync_write tr dn (.scalar (.vint v)) nz r s =
      (.error (.connectionError (syncWriteFailMsg dn
        (bus.ids.map fun i => (i, Value.vint v)) (r + 1)
        (tr.getTxRxResult (tr.syncWriteComm (s.nSyncWrite + r))))),
       { s with nSyncWrite := s.nSyncWrite + r + 1 }) ∧
    bus.write tr dn m (.vint v) nz r s =
      (.error (.connectionError (writeFailMsg dn mid (Value.pyRepr (.vint v)) (r + 1)
        (tr.getTxRxResult ((tr.writeComm (s.nWrite + r)).1)))),
       { s with nWrite := s.nWrite + r + 1 }) ∧
    (∃ out, bus.sync_read tr2 dn .all nz r s =
      (.ok out, { s with nSyncRead := s.nSyncRead + j + 1 })) ∧
    (∃ out, bus.sync_write tr2 dn (.scalar (.vint v)) nz r s =
      (out, { s with nSyncWrite := s.nSyncWrite + j + 1 })) ∧
    (∃ out, bus.write tr2 dn m (.vint v) nz r s =
      (out, { s with nWrite := s.nWrite + j + 1 })) :=
  ⟨sync_read_all_fail bus tr dn nz r s addr nb hconn hnodup hguard hfr,
    sync_write_scalar_fail bus tr dn v nz r s addr nb hconn hnodup hguard hnorm hfw,
    write_single_fail bus tr dn m mid v nz r s addr2 nb2 hconn hgid hwg hnorm hfs,
    sync_read_all_success bus tr2 dn nz r j s addr nb hconn hnodup hguard hnorm hjr hsr hbr,
    sync_write_scalar_success bus tr2 dn v nz r j s addr nb hconn hnodup hguard hnorm hjr hsw hbw,
    write_single_success bus tr2 dn m mid v nz r j s addr2 nb2 hconn hgid hwg hnorm hjr hss hbs⟩

theorem C1_witness :
    busW.connected = true ∧
    busW.ids.Nodup ∧
    busW.group_guard "Homing_Offset" busW.ids none = .ok (31, 2) ∧
    (∀ k, ¬ trFail.syncReadComm k = busW.comm_success) ∧
    (busW.sync_read trFail "Homing_Offset" .all true 2 ⟨0, 0, 0⟩ =
      (.error (.connectionError (syncReadFailMsg "Homing_Offset" busW.ids 3
        (trFail.getTxRxResult (trFail.syncReadComm 2)))), ⟨3, 0, 0⟩) ∧
    busW.sync_write trFail "Homing_Offset" (.scalar (.vint 5)) true 2 ⟨0, 0, 0⟩ =
      (.error (.connectionError (syncWriteFailMsg "Homing_Offset"
        (busW.ids.map fun i => (i, Value.vint 5)) 3
        (trFail.getTxRxResult (trFail.syncWriteComm 2)))), ⟨0, 3, 0⟩) ∧
    busW.write trFail "Homing_Offset" (.name "wrist") (.vint 5) true 2 ⟨0, 0, 0⟩ =
      (.error (.connectionError (writeFailMsg "Homing_Offset" 6 (Value.pyRepr (.vint 5)) 3
        (trFail.getTxRxResult ((trFail.writeComm 2).1)))), ⟨0, 0, 3⟩) ∧
    (∃ out, busW.sync_read trOK "Homing_Offset" .all true 2 ⟨0, 0, 0⟩ = (.ok out, ⟨1, 0, 0⟩)) ∧
    (∃ out, busW.sync_write trOK "Homing_Offset" (.scalar (.vint 5)) true 2 ⟨0, 0, 0⟩ =
      (out, ⟨0, 1, 0⟩)) ∧
    (∃ out, busW.write trOK "Homing_Offset" (.name "wrist") (.vint 5) true 2 ⟨0, 0, 0⟩ =
      (out, ⟨0, 0, 1⟩))) :=
  ⟨rfl, by decide, rfl, fun k => show ¬ (1 : Int) = 0 by decide,
    C1_retry_exhaustion_and_stop busW trFail trOK "Homing_Offset" (.name "wrist") 6 5 true 2 0
      ⟨0, 0, 0⟩ 31 2 31 2 rfl (by decide) rfl rfl rfl (by decide)
      (fun k => show ¬ (1 : Int) = 0 by decide) (fun k => show ¬ (1 : Int) = 0 by decide)
      (fun k => show ¬ (1 : Int) = 0 by decide)
      (Nat.zero_le 2) rfl (fun k hk => absurd hk (Nat.not_lt_zero k))
      rfl (fun k hk => absurd hk (Nat.not_lt_zero k))
      rfl (fun k hk => absurd hk (Nat.not_lt_zero k))⟩

/-- A second model's control table placing `Goal_Position` at a different
address and width. -/
def ctrlTB : CtrlTable :=
  [("Homing_Offset", (31, 2)), ("Min_Position_Limit", (9, 2)), ("Max_Position_Limit", (11, 2)),
    ("Goal_Position", (60, 4)), ("Present_Position", (58, 2))]

/-- A bus mixing two models whose control tables differ on `Goal_Position`. -/
def busC2 : MotorsBus :=
  { busW with
    motors := [("wrist", ⟨6, "sts3215", .range_m100_100⟩), ("base", ⟨2, "xl330", .range_m100_100⟩)]
    model_ctrl_table := [("sts3215", ctrlTW), ("xl330", ctrlTB)] }

theorem C2_witness :
    busC2.has_different_ctrl_tables = .ok true ∧
    [6, 2].mapM busC2.id_to_model = .ok ["sts3215", "xl330"] ∧
    ["sts3215", "xl330"].mapM
      (fun m => get_address busC2.model_ctrl_table m "Goal_Position") = .ok [(56, 2), (60, 4)] ∧
    2 ≤ ([(56, 2), (60, 4)] : List (Nat × Nat)).dedup.length ∧
    (∃ msg, assert_same_address busC2.model_ctrl_table ["sts3215", "xl330"] "Goal_Position" =
        .error (.notImplemented msg) ∧
      busC2._sync_read trOK "Goal_Position" [6, 2] none 0 ⟨0, 0, 0⟩ =
        (.error (.notImplemented msg), ⟨0, 0, 0⟩) ∧
      busC2._sync_write trOK "Goal_Position" [(6, .vint 5), (2, .vint 5)] 0 ⟨0, 0, 0⟩ =
        (.error (.notImplemented msg), ⟨0, 0, 0⟩)) :=
  ⟨rfl, rfl, rfl, by decide,
    C2_cross_model_guard busC2 trOK "Goal_Position" [6, 2] ["sts3215", "xl330"]
      [(56, 2), (60, 4)] [(6, .vint 5), (2, .vint 5)] 0 0 ⟨0, 0, 0⟩ ⟨0, 0, 0⟩
      rfl rfl rfl (by decide) rfl⟩
